import Mathlib

/-!
processamento-grafico: a circle drawn as a triangle fan.

A shallow embedding of `src/main.cpp`.

* The arithmetic of the geometry generator is read over an arbitrary field `α`
  together with two functions `cos sin : α → α`; the theorems about the points
  instantiate `α` with the real numbers and the real cosine and sine.
* The graphics and windowing libraries are external.  Every value they hand back
  to the program is a field of `Api` (an input of the model), and every call the
  program makes is appended, with its arguments, to the `trace` of the `World`.
* Local C arrays are lists of optional cells (`none` is an uninitialised cell); an
  access outside the array has no defined behaviour and makes the model return `none`.
-/

namespace ProcessamentoGrafico

/-! ## Named constants of the library headers used by the program -/

/-- The enumerators of the GL, GLFW and GLEW headers that `main.cpp` mentions. -/
inductive GLconst where
  | GLFW_CONTEXT_VERSION_MAJOR
  | GLFW_CONTEXT_VERSION_MINOR
  | GLFW_OPENGL_PROFILE
  | GLFW_OPENGL_CORE_PROFILE
  | GLFW_OPENGL_FORWARD_COMPAT
  | GL_TRUE
  | GL_FALSE
  | GL_ARRAY_BUFFER
  | GL_STATIC_DRAW
  | GL_FLOAT
  | GL_VERTEX_SHADER
  | GL_FRAGMENT_SHADER
  | GL_COMPILE_STATUS
  | GL_LINK_STATUS
  | GL_VALIDATE_STATUS
  | GL_COLOR_BUFFER_BIT
  | GL_TRIANGLE_FAN
  | GLEW_OK
  deriving DecidableEq, Repr

/-- An argument that is either a named constant or a plain integer
(`glfwWindowHint` receives both kinds). -/
inductive Arg where
  | const (c : GLconst)
  | int (n : Int)
  deriving DecidableEq, Repr

/-- The calls the program makes to the C library, GLFW, GLEW and OpenGL, with the
arguments it passes.  Output parameters are not listed: what a call writes back is
an answer of the `Api`. -/
inductive Event (α : Type) where
  | printf (out : String)
  | glfwInit
  | glfwTerminate
  | glfwWindowHint (hint : GLconst) (value : Arg)
  | glfwCreateWindow (width height : Int) (title : String) (monitor share : Nat)
  | glfwGetFramebufferSize (window : Nat)
  | glfwMakeContextCurrent (window : Nat)
  | glewExperimentalAssign (value : GLconst)
  | glewInit
  | glfwDestroyWindow (window : Nat)
  | glViewport (x y width height : Int)
  | glGenVertexArrays (n : Nat)
  | glBindVertexArray (array : Nat)
  | glGenBuffers (n : Nat)
  | glBindBuffer (target : GLconst) (buffer : Nat)
  | glBufferData (target : GLconst) (size : Nat) (data : List (Option α)) (usage : GLconst)
  | glVertexAttribPointer (index size : Nat) (type normalized : GLconst) (stride pointer : Nat)
  | glEnableVertexAttribArray (index : Nat)
  | glCreateProgram
  | glCreateShader (shaderType : GLconst)
  | glShaderSource (shader count : Nat) (code : List String) (length : List Nat)
  | glCompileShader (shader : Nat)
  | glGetShaderiv (shader : Nat) (pname : GLconst)
  | glGetShaderInfoLog (shader bufSize : Nat)
  | glAttachShader (program shader : Nat)
  | glLinkProgram (program : Nat)
  | glValidateProgram (program : Nat)
  | glGetProgramiv (program : Nat) (pname : GLconst)
  | glGetProgramInfoLog (program bufSize : Nat)
  | glfwWindowShouldClose (window : Nat)
  | glfwPollEvents
  | glClearColor (r g b a : α)
  | glClear (mask : GLconst)
  | glUseProgram (program : Nat)
  | glDrawArrays (mode : GLconst) (first count : Nat)
  | glfwSwapBuffers (window : Nat)

/-- What one call of `addShader` gets back from the graphics API. -/
structure ShaderAnswers where
  /-- the handle returned by `glCreateShader` -/
  shader : Nat
  /-- the value of `result` after `glGetShaderiv(shader, GL_COMPILE_STATUS, &result)` -/
  compileStatus : Int
  /-- the C string in `errorLog` after `glGetShaderInfoLog` -/
  errorLog : String

/-- Everything the external libraries hand back to the program. -/
structure Api where
  /-- the numeric value the headers give a named constant -/
  value : GLconst → Nat
  /-- the value of `sizeof(GLfloat)` -/
  sizeofGLfloat : Nat
  /-- the result of `glfwInit()` -/
  glfwInit : Int
  /-- the pointer returned by `glfwCreateWindow` (0 is NULL) -/
  glfwCreateWindow : Nat
  /-- the two values written by `glfwGetFramebufferSize` -/
  bufferWidth : Int
  bufferHeight : Int
  /-- the result of `glewInit()` -/
  glewInit : Nat
  /-- the value of `VAO` after `glGenVertexArrays(1, &VAO)` -/
  glGenVertexArrays : Nat
  /-- the value of `VBO` after `glGenBuffers(1, &VBO)` -/
  glGenBuffers : Nat
  /-- the handle returned by `glCreateProgram()` -/
  glCreateProgram : Nat
  /-- the answers to `addShader(shaderProgram, vertexShader, GL_VERTEX_SHADER)` -/
  vertex : ShaderAnswers
  /-- the answers to `addShader(shaderProgram, fragmentShader, GL_FRAGMENT_SHADER)` -/
  fragment : ShaderAnswers
  /-- the value of `result` after `glGetProgramiv(shaderProgram, GL_LINK_STATUS, &result)` -/
  linkStatus : Int
  /-- the C string in `errorLog` after the link failure is queried -/
  linkLog : String
  /-- the value of `result` after `glGetProgramiv(shaderProgram, GL_VALIDATE_STATUS, &result)` -/
  validateStatus : Int
  /-- the C string in `errorLog` after the validation failure is queried -/
  validateLog : String
  /-- the n-th value read from `glfwWindowShouldClose(mainWindow)`, counting from 0 -/
  windowShouldClose : Nat → Int

/-- The process-wide variables `VAO`, `VBO`, `shaderProgram` and the calls made so far,
oldest first. -/
structure World (α : Type) where
  VAO : Nat
  VBO : Nat
  shaderProgram : Nat
  trace : List (Event α)

/-- The state at program start: the three globals are zero-initialised. -/
def World.init (α : Type) : World α := ⟨0, 0, 0, []⟩

/-- Record one call. -/
def World.emit {α : Type} (w : World α) (e : Event α) : World α :=
  { w with trace := w.trace ++ [e] }

/-! ## Source constants -/

/-- Source: `const GLint WIDTH = 800`. -/
def WIDTH : Int := 800

/-- Source: `const GLint HEIGHT = 600`. -/
def HEIGHT : Int := 600

/-- Source: `static const char* vertexShader`. -/
def vertexShader : String :=
  "                                           \n" ++
  "#version 330                                                                  \n" ++
  "                                                                              \n" ++
  "layout (location = 0) in vec3 pos;\t\t\t\t\t\t\t\t\t\t\t  \n" ++
  "                                                                              \n" ++
  "void main() \x7b                                                                 \n" ++
  "    gl_Position = vec4(0.4 * pos.x, 0.4 * pos.y, 0.0, 1.0);\t\t\t\t      \n" ++
  "\x7d"

/-- Source: `static const char* fragmentShader`. -/
def fragmentShader : String :=
  "                                         \n" ++
  "#version 330                                                                  \n" ++
  "                                                                              \n" ++
  "out vec4 colour;                                                              \n" ++
  "                                                                              \n" ++
  "void main() \x7b                                                                 \n" ++
  "    colour = vec4(1.0, 0.0, 0.0, 1.0);                                        \n" ++
  "\x7d"

/-! ## Local C arrays -/

/-- A fixed-size C array; `none` is a cell that has not been written. -/
abbrev CArray (α : Type) := List (Option α)

/-- A freshly declared array of `n` cells. -/
def CArray.uninit (α : Type) (n : Nat) : CArray α := List.replicate n none

/-- The assignment `a[i] = v`; `none` when `i` is outside the array. -/
def CArray.store {α : Type} (a : CArray α) (i : Nat) (v : α) : Option (CArray α) :=
  if i < a.length then some (a.set i (some v)) else none

/-- The read `a[i]`; `none` when `i` is outside the array or the cell is unwritten. -/
def CArray.load {α : Type} (a : CArray α) (i : Nat) : Option α :=
  (a[i]?).join

/-! ## Geometry generator -/

section Geometry

variable {α : Type} [Field α]

/-- Source: `const float PI = 3.14159;`. -/
def PI : α := 3.14159

/-- Source: `float radius = 1.0f;`. -/
def radius : α := 1.0

/-- The argument of `cos` and `sin` for point `i`, for a constant `c` in the place of
`PI`: `(c * 2 * i) / 45`. -/
def angleOf (c : α) (i : Nat) : α := (c * 2 * (i : α)) / 45

/-- The right-hand side of `posX[i] = radius * cos((PI * 2 * i) / 45)` with `c` for `PI`. -/
def pointX (cos : α → α) (c : α) (i : Nat) : α := radius * cos (angleOf c i)

/-- The right-hand side of `posY[i] = radius * sin((PI * 2 * i) / 45)` with `c` for `PI`. -/
def pointY (sin : α → α) (c : α) (i : Nat) : α := radius * sin (angleOf c i)

/-- The locals of `createTriangle`.  `stores` logs, in program order, the indices of
`vertices` that have been assigned. -/
structure Locals (α : Type) where
  vertices : CArray α
  posX : CArray α
  posY : CArray α
  stores : List Nat

/-- The declarations `GLfloat vertices[90]; GLfloat posX[45]; GLfloat posY[45];`. -/
def Locals.declare (α : Type) : Locals α :=
  ⟨CArray.uninit α 90, CArray.uninit α 45, CArray.uninit α 45, []⟩

/-- Body of the first loop: `posX[i] = ...; posY[i] = ...;`. -/
def fillBody (cos sin : α → α) (l : Locals α) (i : Nat) : Option (Locals α) := do
  let px ← l.posX.store i (pointX cos PI i)
  let py ← l.posY.store i (pointY sin PI i)
  pure { l with posX := px, posY := py }

/-- Body of the second loop: `vertices[i * 2] = posX[i]; vertices[(i * 2) + 1] = posY[i];`. -/
def interleaveBody (l : Locals α) (i : Nat) : Option (Locals α) := do
  let x ← l.posX.load i
  let v1 ← l.vertices.store (i * 2) x
  let y ← l.posY.load i
  let v2 ← v1.store ((i * 2) + 1) y
  pure { l with vertices := v2, stores := l.stores ++ [i * 2, (i * 2) + 1] }

/-- The two loops `for (int i = 0; i < 45; i++)` of `createTriangle`, run on the
freshly declared locals. -/
def computeVertices (cos sin : α → α) : Option (Locals α) := do
  let l1 ← (List.range 45).foldlM (fillBody cos sin) (Locals.declare α)
  (List.range 45).foldlM interleaveBody l1

/-- Source: `void createTriangle()`; `none` when a loop leaves one of the arrays. -/
def createTriangle (cos sin : α → α) (api : Api) (w : World α) : Option (World α) := do
  let l ← computeVertices cos sin
  let w := { w with VAO := api.glGenVertexArrays }.emit (.glGenVertexArrays 1)
  let w := w.emit (.glBindVertexArray w.VAO)
  let w := { w with VBO := api.glGenBuffers }.emit (.glGenBuffers 1)
  let w := w.emit (.glBindBuffer .GL_ARRAY_BUFFER w.VBO)
  let w := w.emit
    (.glBufferData .GL_ARRAY_BUFFER (l.vertices.length * api.sizeofGLfloat) l.vertices
      .GL_STATIC_DRAW)
  let w := w.emit (.glVertexAttribPointer 0 2 .GL_FLOAT .GL_FALSE 0 0)
  let w := w.emit (.glEnableVertexAttribArray 0)
  let w := w.emit (.glBindBuffer .GL_ARRAY_BUFFER 0)
  let w := w.emit (.glBindVertexArray 0)
  pure w

end Geometry

/-! ## Shader builder -/

section Shaders

variable {α : Type}

/-- What `printf` writes for `%d` when handed a `GLenum` (an unsigned 32-bit value
read back as a signed one). -/
def fmtD (v : Nat) : String :=
  toString (if v % 2 ^ 32 < 2 ^ 31 then ((v % 2 ^ 32 : Nat) : Int) else ((v % 2 ^ 32 : Nat) : Int) - 2 ^ 32)

/-- The text of `printf("Error compiling the %d shader program: \x27%s\x27 \n", shaderType, errorLog)`. -/
def compileDiagnostic (shaderTypeValue : Nat) (errorLog : String) : String :=
  "Error compiling the " ++ fmtD shaderTypeValue ++ " shader program: \x27" ++ errorLog ++ "\x27 \n"

/-- The text of `printf("Error linking program: \x27%s\x27\n", errorLog)`. -/
def linkDiagnostic (errorLog : String) : String :=
  "Error linking program: \x27" ++ errorLog ++ "\x27\n"

/-- The text of `printf("Error validating program: \x27%s\x27\n", errorLog)`. -/
def validateDiagnostic (errorLog : String) : String :=
  "Error validating program: \x27" ++ errorLog ++ "\x27\n"

/-- Source: `void addShader(GLuint shaderProgram, const char* shaderCode, GLenum shaderType)`;
`ans` holds what the graphics API answers during this call. -/
def addShader (api : Api) (ans : ShaderAnswers) (shaderProgram : Nat) (shaderCode : String)
    (shaderType : GLconst) (w : World α) : World α :=
  let shader := ans.shader
  let w := w.emit (.glCreateShader shaderType)
  let w := w.emit (.glShaderSource shader 1 [shaderCode] [shaderCode.utf8ByteSize])
  let w := w.emit (.glCompileShader shader)
  let w := w.emit (.glGetShaderiv shader .GL_COMPILE_STATUS)
  let result := ans.compileStatus
  if result = 0 then
    let w := w.emit (.glGetShaderInfoLog shader 1024)
    w.emit (.printf (compileDiagnostic (api.value shaderType) ans.errorLog))
  else
    w.emit (.glAttachShader shaderProgram shader)

/-- Source: `void compileShaders()`. -/
def compileShaders (api : Api) (w : World α) : World α :=
  let w := { w.emit .glCreateProgram with shaderProgram := api.glCreateProgram }
  if w.shaderProgram = 0 then
    w.emit (.printf "Error creating shader program!\n")
  else
    let w := addShader api api.vertex w.shaderProgram vertexShader .GL_VERTEX_SHADER w
    let w := addShader api api.fragment w.shaderProgram fragmentShader .GL_FRAGMENT_SHADER w
    let w := w.emit (.glLinkProgram w.shaderProgram)
    let w := w.emit (.glGetProgramiv w.shaderProgram .GL_LINK_STATUS)
    if api.linkStatus = 0 then
      let w := w.emit (.glGetProgramInfoLog w.shaderProgram 1024)
      w.emit (.printf (linkDiagnostic api.linkLog))
    else
      let w := w.emit (.glValidateProgram w.shaderProgram)
      let w := w.emit (.glGetProgramiv w.shaderProgram .GL_VALIDATE_STATUS)
      if api.validateStatus = 0 then
        let w := w.emit (.glGetProgramInfoLog w.shaderProgram 1024)
        w.emit (.printf (validateDiagnostic api.validateLog))
      else
        w

end Shaders

/-! ## Render loop and `main` -/

section Main

variable {α : Type} [Field α]

/-- The two states of the render loop. -/
inductive Phase where
  | RUNNING
  | CLOSED
  deriving DecidableEq, Repr

/-- The render loop between two evaluations of its condition: the phase, the number
of close-request readings taken so far, and the world. -/
structure LoopState (α : Type) where
  phase : Phase
  polls : Nat
  world : World α

/-- The body of `while (!glfwWindowShouldClose(mainWindow))`: one frame. -/
def frame (mainWindow : Nat) (w : World α) : World α :=
  let w := w.emit .glfwPollEvents
  let w := w.emit (.glClearColor 0.0 0.0 0.0 1.0)
  let w := w.emit (.glClear .GL_COLOR_BUFFER_BIT)
  let w := w.emit (.glUseProgram w.shaderProgram)
  let w := w.emit (.glBindVertexArray w.VAO)
  let w := w.emit (.glDrawArrays .GL_TRIANGLE_FAN 0 45)
  let w := w.emit (.glBindVertexArray 0)
  let w := w.emit (.glUseProgram 0)
  w.emit (.glfwSwapBuffers mainWindow)

/-- One evaluation of the loop condition, followed by the body when the reading is 0.
After the loop has been left nothing more is read or drawn. -/
def loopStep (api : Api) (mainWindow : Nat) (s : LoopState α) : LoopState α :=
  match s.phase with
  | .CLOSED => s
  | .RUNNING =>
    let w := s.world.emit (.glfwWindowShouldClose mainWindow)
    if api.windowShouldClose s.polls = 0 then
      ⟨.RUNNING, s.polls + 1, frame mainWindow w⟩
    else
      ⟨.CLOSED, s.polls + 1, w⟩

/-- The loop, stepped `fuel` times from its entry. -/
def renderLoop (api : Api) (mainWindow : Nat) (w : World α) : Nat → LoopState α
  | 0 => ⟨.RUNNING, 0, w⟩
  | fuel + 1 => loopStep api mainWindow (renderLoop api mainWindow w fuel)

/-- How a run of `main` stands after the loop has been stepped `fuel` times. -/
inductive Outcome (α : Type) where
  | returned (status : Int) (w : World α)
  | running (w : World α)
  | undefined

/-- Source: `int main()`, with the render loop stepped `fuel` times. -/
def main (cos sin : α → α) (api : Api) (fuel : Nat) : Outcome α :=
  let w := (World.init α).emit .glfwInit
  if api.glfwInit = 0 then
    let w := w.emit (.printf "GLFW initialization failed!")
    let w := w.emit .glfwTerminate
    .returned 1 w
  else
    let w := w.emit (.glfwWindowHint .GLFW_CONTEXT_VERSION_MAJOR (.int 3))
    let w := w.emit (.glfwWindowHint .GLFW_CONTEXT_VERSION_MINOR (.int 3))
    let w := w.emit (.glfwWindowHint .GLFW_OPENGL_PROFILE (.const .GLFW_OPENGL_CORE_PROFILE))
    let w := w.emit (.glfwWindowHint .GLFW_OPENGL_FORWARD_COMPAT (.const .GL_TRUE))
    let mainWindow := api.glfwCreateWindow
    let w := w.emit (.glfwCreateWindow WIDTH HEIGHT "processamento-grafico" 0 0)
    if mainWindow = 0 then
      let w := w.emit (.printf "GLFW window creation failed!")
      let w := w.emit .glfwTerminate
      .returned 1 w
    else
      let w := w.emit (.glfwGetFramebufferSize mainWindow)
      let w := w.emit (.glfwMakeContextCurrent mainWindow)
      let w := w.emit (.glewExperimentalAssign .GL_TRUE)
      let w := w.emit .glewInit
      if api.glewInit ≠ api.value .GLEW_OK then
        let w := w.emit (.printf "GLEW initialization failed")
        let w := w.emit (.glfwDestroyWindow mainWindow)
        let w := w.emit .glfwTerminate
        .returned 1 w
      else
        let w := w.emit (.glViewport 0 0 api.bufferWidth api.bufferHeight)
        match createTriangle cos sin api w with
        | none => .undefined
        | some w =>
          let w := compileShaders api w
          let s := renderLoop api mainWindow w fuel
          match s.phase with
          | .CLOSED => .returned 0 s.world
          | .RUNNING => .running s.world

end Main

/-! ## Reading a trace -/

section Reading

variable {α : Type}

/-- The program and the vertex array bound after a sequence of calls, starting from
the bindings `b`: `glUseProgram` and `glBindVertexArray` replace them. -/
def bindingsAfter (b : Nat × Nat) : List (Event α) → Nat × Nat
  | [] => b
  | .glUseProgram p :: es => bindingsAfter (p, b.2) es
  | .glBindVertexArray a :: es => bindingsAfter (b.1, a) es
  | _ :: es => bindingsAfter b es

/-- One draw call as the graphics API sees it: its arguments and the program and
vertex array bound when it is issued. -/
structure DrawCall where
  mode : GLconst
  first : Nat
  count : Nat
  program : Nat
  vertexArray : Nat
  deriving DecidableEq, Repr

/-- The draw calls of a trace, in order, each with the bindings in force at that
point (the bindings before the trace are `b`). -/
def drawCallsFrom (b : Nat × Nat) : List (Event α) → List DrawCall
  | [] => []
  | .glUseProgram p :: es => drawCallsFrom (p, b.2) es
  | .glBindVertexArray a :: es => drawCallsFrom (b.1, a) es
  | .glDrawArrays m f c :: es => ⟨m, f, c, b.1, b.2⟩ :: drawCallsFrom b es
  | _ :: es => drawCallsFrom b es

/-- The draw calls of a whole run: nothing is bound at program start. -/
def drawCalls (t : List (Event α)) : List DrawCall := drawCallsFrom (0, 0) t

/-- Whether a call is a `glAttachShader`. -/
def Event.isAttach : Event α → Bool
  | .glAttachShader _ _ => true
  | _ => false

/-- Whether a call is a `printf`. -/
def Event.isPrintf : Event α → Bool
  | .printf _ => true
  | _ => false

/-- Text `s` occurs inside text `t`. -/
def Contains (t s : String) : Prop := ∃ pre post : String, t = pre ++ s ++ post

end Reading


/-! ## Auxiliary definitions used to state the results -/

section Auxiliary

variable {α : Type} [Field α]
/-- The vertex stored at slot `k` of `vertices`. -/
def slotValue (cos sin : α → α) (k : Nat) : α :=
  if k % 2 = 0 then pointX cos PI (k / 2) else pointY sin PI (k / 2)

/-- The locals after `n` rounds of the first loop. -/
def fillState (cos sin : α → α) (n : Nat) : Locals α :=
  ⟨CArray.uninit α 90,
   (List.range 45).map (fun k => if k < n then some (pointX cos PI k) else none),
   (List.range 45).map (fun k => if k < n then some (pointY sin PI k) else none),
   []⟩

/-- The locals after the first loop and `n` rounds of the second. -/
def interleaveState (cos sin : α → α) (n : Nat) : Locals α :=
  ⟨(List.range 90).map (fun k => if k < 2 * n then some (slotValue cos sin k) else none),
   (List.range 45).map (fun k => if k < 45 then some (pointX cos PI k) else none),
   (List.range 45).map (fun k => if k < 45 then some (pointY sin PI k) else none),
   List.range (2 * n)⟩

/-- The calls of one frame when `program` and `vertexArray` are the values of the globals
`shaderProgram` and `VAO`. -/
def frameCalls (program vertexArray mainWindow : Nat) : List (Event α) :=
  [.glfwPollEvents,
   .glClearColor 0.0 0.0 0.0 1.0,
   .glClear .GL_COLOR_BUFFER_BIT,
   .glUseProgram program,
   .glBindVertexArray vertexArray,
   .glDrawArrays .GL_TRIANGLE_FAN 0 45,
   .glBindVertexArray 0,
   .glUseProgram 0,
   .glfwSwapBuffers mainWindow]

/-- The calls of one loop iteration: the close-request reading, then the frame. -/
def iterationCalls (program vertexArray mainWindow : Nat) : List (Event α) :=
  .glfwWindowShouldClose mainWindow :: frameCalls program vertexArray mainWindow

end Auxiliary

section TraceAuxiliary

variable {α : Type}

/-- A call sequence repeated `n` times. -/
def repeatCalls (l : List (Event α)) : Nat → List (Event α)
  | 0 => []
  | n + 1 => repeatCalls l n ++ l

/-- The number of frames presented in a trace: its `glfwSwapBuffers` calls. -/
def framesPresented : List (Event α) → Nat
  | [] => 0
  | .glfwSwapBuffers _ :: es => framesPresented es + 1
  | _ :: es => framesPresented es

/-- The calls of `createTriangle` once the vertex data is computed. -/
def uploadCalls (api : Api) (data : List (Option α)) : List (Event α) :=
  [.glGenVertexArrays 1,
   .glBindVertexArray api.glGenVertexArrays,
   .glGenBuffers 1,
   .glBindBuffer .GL_ARRAY_BUFFER api.glGenBuffers,
   .glBufferData .GL_ARRAY_BUFFER (90 * api.sizeofGLfloat) data .GL_STATIC_DRAW,
   .glVertexAttribPointer 0 2 .GL_FLOAT .GL_FALSE 0 0,
   .glEnableVertexAttribArray 0,
   .glBindBuffer .GL_ARRAY_BUFFER 0,
   .glBindVertexArray 0]

/-- The calls of `addShader` up to and including the compile-status query. -/
def compileCalls (shader : Nat) (code : String) (shaderType : GLconst) : List (Event α) :=
  [.glCreateShader shaderType,
   .glShaderSource shader 1 [code] [code.utf8ByteSize],
   .glCompileShader shader,
   .glGetShaderiv shader .GL_COMPILE_STATUS]

/-- The calls of `main` before the first early exit that follows window creation. -/
def windowCalls : List (Event α) :=
  [.glfwInit,
   .glfwWindowHint .GLFW_CONTEXT_VERSION_MAJOR (.int 3),
   .glfwWindowHint .GLFW_CONTEXT_VERSION_MINOR (.int 3),
   .glfwWindowHint .GLFW_OPENGL_PROFILE (.const .GLFW_OPENGL_CORE_PROFILE),
   .glfwWindowHint .GLFW_OPENGL_FORWARD_COMPAT (.const .GL_TRUE),
   .glfwCreateWindow WIDTH HEIGHT "processamento-grafico" 0 0]

/-- The calls of `main` between window creation and the check of `glewInit`. -/
def contextCalls (mainWindow : Nat) : List (Event α) :=
  [.glfwGetFramebufferSize mainWindow,
   .glfwMakeContextCurrent mainWindow,
   .glewExperimentalAssign .GL_TRUE,
   .glewInit]

/-- A set of answers used as a concrete input: every call succeeds, handles are 1, 2, ...,
and the `k`-th close-request reading is the first non-zero one. -/
def sampleApi (k : Nat) : Api where
  value := fun c => match c with
    | .GLEW_OK => 0
    | .GL_VERTEX_SHADER => 35633
    | .GL_FRAGMENT_SHADER => 35632
    | _ => 1
  sizeofGLfloat := 4
  glfwInit := 1
  glfwCreateWindow := 7
  bufferWidth := 800
  bufferHeight := 600
  glewInit := 0
  glGenVertexArrays := 1
  glGenBuffers := 2
  glCreateProgram := 3
  vertex := ⟨4, 1, ""⟩
  fragment := ⟨5, 1, ""⟩
  linkStatus := 1
  linkLog := ""
  validateStatus := 1
  validateLog := ""
  windowShouldClose := fun n => if n = k then 1 else 0

/-- The calls of one `addShader` for the answers `ans`. -/
def shaderCalls (api : Api) (ans : ShaderAnswers) (program : Nat) (code : String)
    (shaderType : GLconst) : List (Event α) :=
  compileCalls ans.shader code shaderType ++
    if ans.compileStatus = 0 then
      [.glGetShaderInfoLog ans.shader 1024,
       .printf (compileDiagnostic (api.value shaderType) ans.errorLog)]
    else
      [.glAttachShader program ans.shader]

/-- The calls of `compileShaders` after a successful link. -/
def validateCalls (api : Api) : List (Event α) :=
  [.glValidateProgram api.glCreateProgram,
   .glGetProgramiv api.glCreateProgram .GL_VALIDATE_STATUS] ++
    if api.validateStatus = 0 then
      [.glGetProgramInfoLog api.glCreateProgram 1024,
       .printf (validateDiagnostic api.validateLog)]
    else
      []

/-- The calls of `compileShaders` from the link on. -/
def linkCalls (api : Api) : List (Event α) :=
  [.glLinkProgram api.glCreateProgram,
   .glGetProgramiv api.glCreateProgram .GL_LINK_STATUS] ++
    if api.linkStatus = 0 then
      [.glGetProgramInfoLog api.glCreateProgram 1024,
       .printf (linkDiagnostic api.linkLog)]
    else
      validateCalls api

/-- The calls of `compileShaders`. -/
def compileShadersCalls (api : Api) : List (Event α) :=
  [.glCreateProgram] ++
    if api.glCreateProgram = 0 then
      [.printf "Error creating shader program!\n"]
    else
      shaderCalls api api.vertex api.glCreateProgram vertexShader .GL_VERTEX_SHADER ++
        shaderCalls api api.fragment api.glCreateProgram fragmentShader .GL_FRAGMENT_SHADER ++
        linkCalls api

/-- The calls of `main` up to `glViewport`, when the three bootstrap calls succeed. -/
def bootstrapCalls (api : Api) : List (Event α) :=
  windowCalls ++ contextCalls api.glfwCreateWindow ++
    [.glViewport 0 0 api.bufferWidth api.bufferHeight]

/-- The answers of `sampleApi 0`, except that `glCreateProgram` hands back 0. -/
def failedProgramApi : Api := { sampleApi 0 with glCreateProgram := 0 }

/-- The answers of `sampleApi 0`, except that `glfwInit` fails. -/
def failedInitApi : Api := { sampleApi 0 with glfwInit := 0 }

end TraceAuxiliary

section SetupAuxiliary

variable {α : Type} [Field α]

/-- The world in which `main` enters the render loop when the three bootstrap calls
succeed. -/
def setupWorld (cos sin : α → α) (api : Api) : World α :=
  ⟨api.glGenVertexArrays, api.glGenBuffers, api.glCreateProgram,
    bootstrapCalls api ++ uploadCalls api (interleaveState cos sin 45).vertices ++
      compileShadersCalls api⟩

end SetupAuxiliary

/-! ## Geometry generator: the two loops -/

section GeometryProofs

variable {α : Type} [Field α]

theorem set_map_range {β : Type} (N n : Nat) (f : Nat → Option β) (v : Option β) :
    ((List.range N).map f).set n v = (List.range N).map (fun k => if k = n then v else f k) := by
  apply List.ext_getElem?
  intro k
  rw [List.getElem?_set]
  by_cases hk : k < N
  · by_cases hkn : n = k
    · subst hkn
      simp [hk]
    · have : ¬ k = n := fun h => hkn h.symm
      simp [hk, hkn, this]
  · have hk2 : N ≤ k := Nat.le_of_not_lt hk
    by_cases hkn : n = k
    · subst hkn
      simp [hk, List.getElem?_eq_none, hk2]
    · simp [hkn, List.getElem?_eq_none, hk2]

theorem fill_step (cos sin : α → α) (n : Nat) (h : n < 45) :
    fillBody cos sin (fillState cos sin n) n = some (fillState cos sin (n + 1)) := by
  simp only [fillBody, fillState, CArray.store, List.length_map, List.length_range, h, if_true,
    set_map_range, Option.bind_eq_bind, Option.some_bind, Option.pure_def]
  congr 2
  · apply List.map_congr_left
    intro k _
    by_cases hk : k = n
    · simp [hk]
    · have : k < n + 1 ↔ k < n := by omega
      simp [hk, this]
  · apply List.map_congr_left
    intro k _
    by_cases hk : k = n
    · simp [hk]
    · have : k < n + 1 ↔ k < n := by omega
      simp [hk, this]


theorem fill_loop (cos sin : α → α) (n : Nat) (h : n ≤ 45) :
    (List.range n).foldlM (fillBody cos sin) (Locals.declare α) = some (fillState cos sin n) := by
  induction n with
  | zero =>
    simp only [fillState, Locals.declare, CArray.uninit, List.range_zero, List.foldlM_nil,
      Nat.not_lt_zero, if_false, List.map_const', List.length_range]
    rfl
  | succ m ih =>
    rw [List.range_succ, List.foldlM_append, ih (by omega)]
    simp only [List.foldlM_cons, List.foldlM_nil, Option.bind_eq_bind, Option.some_bind,
      fill_step cos sin m (by omega), Option.pure_def]

theorem interleave_step (cos sin : α → α) (n : Nat) (h : n < 45) :
    interleaveBody (interleaveState cos sin n) n = some (interleaveState cos sin (n + 1)) := by
  have h1 : n * 2 < 90 := by omega
  have h2 : n * 2 + 1 < 90 := by omega
  have e1 : n * 2 % 2 = 0 := by omega
  have e2 : n * 2 / 2 = n := by omega
  have e3 : (n * 2 + 1) % 2 = 1 := by omega
  have e4 : (n * 2 + 1) / 2 = n := by omega
  simp only [interleaveBody, interleaveState, CArray.store, CArray.load, List.length_map,
    List.length_range, List.length_set, h, h1, h2, if_true, set_map_range, Option.bind_eq_bind,
    Option.some_bind, Option.pure_def, List.getElem?_map, List.getElem?_range, Option.map_some',
    Option.join, id]
  congr 2
  · apply List.map_congr_left
    intro k _
    by_cases hk1 : k = n * 2 + 1
    · subst hk1
      have : n * 2 + 1 < 2 * (n + 1) := by omega
      simp only [this, if_true, slotValue, e3, e4]
      simp
    · by_cases hk0 : k = n * 2
      · subst hk0
        have : n * 2 < 2 * (n + 1) := by omega
        simp only [this, if_true, slotValue, e1, e2, hk1, if_false]
      · have : k < 2 * (n + 1) ↔ k < 2 * n := by omega
        simp only [hk0, hk1, this, if_false]
  · have : 2 * (n + 1) = 2 * n + 1 + 1 := by omega
    rw [this, List.range_succ, List.range_succ]
    have e5 : n * 2 = 2 * n := by omega
    simp only [e5, List.append_assoc, List.singleton_append]

theorem interleave_loop (cos sin : α → α) (n : Nat) (h : n ≤ 45) :
    (List.range n).foldlM interleaveBody (fillState cos sin 45)
      = some (interleaveState cos sin n) := by
  induction n with
  | zero =>
    simp only [fillState, interleaveState, CArray.uninit, List.range_zero, List.foldlM_nil,
      Nat.mul_zero, Nat.not_lt_zero, if_false, List.map_const', List.length_range]
    rfl
  | succ m ih =>
    rw [List.range_succ, List.foldlM_append, ih (by omega)]
    simp only [List.foldlM_cons, List.foldlM_nil, Option.bind_eq_bind, Option.some_bind,
      interleave_step cos sin m (by omega), Option.pure_def]

theorem computeVertices_eq (cos sin : α → α) :
    computeVertices cos sin = some (interleaveState cos sin 45) := by
  have h1 := fill_loop cos sin 45 (Nat.le_refl 45)
  have h2 := interleave_loop cos sin 45 (Nat.le_refl 45)
  unfold computeVertices
  rw [h1, Option.bind_eq_bind, Option.some_bind]
  rw [h2]


theorem load_map_range {β : Type} (N i : Nat) (f : Nat → Option β) (h : i < N) :
    CArray.load ((List.range N).map f) i = f i := by
  simp only [CArray.load, List.getElem?_map, List.getElem?_range h, Option.map_some',
    Option.join, id, Option.some_bind]

theorem final_posX (cos sin : α → α) (i : Nat) (h : i < 45) :
    (interleaveState cos sin 45).posX.load i = some (pointX cos PI i) := by
  simp only [interleaveState, load_map_range 45 i _ h, h, if_true]

theorem final_posY (cos sin : α → α) (i : Nat) (h : i < 45) :
    (interleaveState cos sin 45).posY.load i = some (pointY sin PI i) := by
  simp only [interleaveState, load_map_range 45 i _ h, h, if_true]

theorem final_vertices (cos sin : α → α) (k : Nat) (h : k < 90) :
    (interleaveState cos sin 45).vertices.load k = some (slotValue cos sin k) := by
  have h2 : k < 2 * 45 := by omega
  simp only [interleaveState, load_map_range 90 k _ h, h2, if_true]

theorem final_length (cos sin : α → α) :
    (interleaveState cos sin 45).vertices.length = 90 := by
  simp only [interleaveState, List.length_map, List.length_range]

theorem createTriangle_eq (cos sin : α → α) (api : Api) (w : World α) :
    createTriangle cos sin api w =
      some ⟨api.glGenVertexArrays, api.glGenBuffers, w.shaderProgram,
        w.trace ++ uploadCalls api (interleaveState cos sin 45).vertices⟩ := by
  unfold createTriangle
  rw [computeVertices_eq, Option.bind_eq_bind, Option.some_bind, final_length]
  simp only [World.emit, uploadCalls, Option.pure_def, List.append_assoc, List.singleton_append,
    List.cons_append, List.nil_append]

theorem final_stores (cos sin : α → α) :
    (interleaveState cos sin 45).stores = List.range 90 := by
  simp only [interleaveState]

end GeometryProofs

attribute [irreducible] computeVertices interleaveState

section RealProofs

open Real

theorem PI_real : (PI : ℝ) = 3.14159 := rfl

theorem radius_real : (radius : ℝ) = 1 := by
  norm_num [radius]

theorem PI_lt_pi : (PI : ℝ) < π := by
  have h := Real.pi_gt_d6
  rw [PI_real]
  norm_num at h ⊢
  linarith

theorem PI_pos : (0 : ℝ) < PI := by
  rw [PI_real]
  norm_num

theorem angleOf_sub (c : ℝ) (i j : Nat) :
    angleOf c i - angleOf c j = (2 * c / 45) * ((i : ℝ) - (j : ℝ)) := by
  simp only [angleOf]
  ring

/-- Two of the 45 angles differ by a non-zero amount smaller than a full turn. -/
theorem angle_gap (i j : Nat) (hi : i < 45) (hij : j < i) :
    0 < angleOf (PI : ℝ) i - angleOf (PI : ℝ) j ∧
      angleOf (PI : ℝ) i - angleOf (PI : ℝ) j < 2 * π := by
  rw [angleOf_sub]
  have hP := PI_pos
  have hlt := PI_lt_pi
  have h1 : (1 : ℝ) ≤ (i : ℝ) - (j : ℝ) := by
    have : (j : ℝ) + 1 ≤ (i : ℝ) := by exact_mod_cast hij
    linarith
  have h2 : (i : ℝ) - (j : ℝ) ≤ 44 := by
    have : (i : ℝ) ≤ 44 := by exact_mod_cast (Nat.lt_succ_iff.mp hi)
    have : (0 : ℝ) ≤ (j : ℝ) := Nat.cast_nonneg j
    linarith
  constructor
  · positivity
  · have h3 : 2 * (PI : ℝ) / 45 * ((i : ℝ) - (j : ℝ)) ≤ 2 * (PI : ℝ) / 45 * 44 := by
      apply mul_le_mul_of_nonneg_left h2
      positivity
    linarith

theorem points_differ_of_lt (i j : Nat) (hi : i < 45) (hij : j < i) :
    ¬ (Real.cos (angleOf (PI : ℝ) i) = Real.cos (angleOf (PI : ℝ) j) ∧
       Real.sin (angleOf (PI : ℝ) i) = Real.sin (angleOf (PI : ℝ) j)) := by
  rintro ⟨hc, hs⟩
  have hA := Real.Angle.cos_sin_inj hc hs
  rw [Real.Angle.angle_eq_iff_two_pi_dvd_sub] at hA
  obtain ⟨k, hk⟩ := hA
  obtain ⟨hpos, hlt⟩ := angle_gap i j hi hij
  rw [hk] at hpos hlt
  have hpi : (0 : ℝ) < 2 * π := by positivity
  have hk0 : (0 : ℝ) < (k : ℝ) := by
    by_contra hneg
    push_neg at hneg
    have : 2 * π * (k : ℝ) ≤ 0 := mul_nonpos_of_nonneg_of_nonpos hpi.le hneg
    linarith
  have hk1 : (k : ℝ) < 1 := by
    by_contra hge
    push_neg at hge
    have : 2 * π * 1 ≤ 2 * π * (k : ℝ) := mul_le_mul_of_nonneg_left hge hpi.le
    linarith
  have hk0' : (0 : ℤ) < k := by exact_mod_cast hk0
  have hk1' : k < (1 : ℤ) := by exact_mod_cast hk1
  omega


theorem cos_PI_grid_gt :
    Real.cos (2 * π * 1 / 45) < Real.cos (angleOf (PI : ℝ) 1) := by
  have hP := PI_pos
  have hlt := PI_lt_pi
  have hpi := Real.pi_pos
  apply Real.cos_lt_cos_of_nonneg_of_le_pi
  · simp only [angleOf, Nat.cast_one]
    positivity
  · linarith
  · simp only [angleOf, Nat.cast_one]
    linarith

end RealProofs

/-! ## The claims about the geometry generator -/

section GeometryClaims

open Real

/-- C1 (counterexample): read over the reals, the x-coordinate the code stores for point 1
is `radius * cos (PI * 2 * 1 / 45)` with the code's `PI`, and that number is not
`1.0 * cos (2 * π * 1 / 45)` for the mathematical constant `π`. -/
theorem C1_point_one_misses_the_pi_grid :
    (computeVertices Real.cos Real.sin).bind (fun l => l.posX.load 1)
        = some (pointX Real.cos PI 1) ∧
      pointX Real.cos (PI : ℝ) 1 ≠ 1.0 * Real.cos (2 * π * 1 / 45) := by
  constructor
  · rw [computeVertices_eq, Option.some_bind]
    exact final_posX Real.cos Real.sin 1 (by omega)
  · have h := cos_PI_grid_gt
    rw [mul_one] at h
    simp only [pointX, radius_real]
    intro heq
    norm_num at heq
    linarith

/-- C1 (amended): read over the reals with radius 1, for every `i < 45` the generated
point `i` is exactly `(cos (2 * 3.14159 * i / 45), sin (2 * 3.14159 * i / 45))`, the angle
being computed from the code's constant `PI = 3.14159`, and the angles of consecutive
points differ by `2 * 3.14159 / 45`. -/
theorem C1_points_follow_the_code_constant (i : Nat) (hi : i < 45) :
    ∃ l : Locals ℝ, computeVertices Real.cos Real.sin = some l ∧
      l.posX.load i = some (1 * Real.cos (2 * 3.14159 * (i : ℝ) / 45)) ∧
      l.posY.load i = some (1 * Real.sin (2 * 3.14159 * (i : ℝ) / 45)) ∧
      angleOf (PI : ℝ) (i + 1) - angleOf (PI : ℝ) i = 2 * 3.14159 / 45 := by
  refine ⟨_, computeVertices_eq Real.cos Real.sin, ?_, ?_, ?_⟩
  · rw [final_posX Real.cos Real.sin i hi]
    simp only [pointX, angleOf, radius_real, PI_real]
    congr 3
    ring
  · rw [final_posY Real.cos Real.sin i hi]
    simp only [pointY, angleOf, radius_real, PI_real]
    congr 3
    ring
  · rw [angleOf_sub, PI_real]
    push_cast
    ring

/-- C1 (amended), at point 1. -/
theorem C1_points_follow_the_code_constant_witness :
    1 < 45 ∧
    ∃ l : Locals ℝ, computeVertices Real.cos Real.sin = some l ∧
      l.posX.load 1 = some (1 * Real.cos (2 * 3.14159 * ((1 : Nat) : ℝ) / 45)) ∧
      l.posY.load 1 = some (1 * Real.sin (2 * 3.14159 * ((1 : Nat) : ℝ) / 45)) ∧
      angleOf (PI : ℝ) (1 + 1) - angleOf (PI : ℝ) 1 = 2 * 3.14159 / 45 :=
  ⟨by decide, C1_points_follow_the_code_constant 1 (by decide)⟩

/-- C2: read over the reals, for every `i < 45` the point `(posX[i], posY[i])` that
`createTriangle` computes satisfies `posX[i]^2 + posY[i]^2 = 1`, and the same holds
whatever constant is used in the place of `PI`. -/
theorem C2_points_on_unit_circle (i : Nat) (hi : i < 45) :
    (∃ (l : Locals ℝ) (x y : ℝ), computeVertices Real.cos Real.sin = some l ∧
      l.posX.load i = some x ∧ l.posY.load i = some y ∧ x ^ 2 + y ^ 2 = 1) ∧
    ∀ c : ℝ, pointX Real.cos c i ^ 2 + pointY Real.sin c i ^ 2 = 1 := by
  have key : ∀ c : ℝ, pointX Real.cos c i ^ 2 + pointY Real.sin c i ^ 2 = 1 := by
    intro c
    simp only [pointX, pointY, radius_real, one_mul]
    exact Real.cos_sq_add_sin_sq _
  exact ⟨⟨_, _, _, computeVertices_eq Real.cos Real.sin, final_posX Real.cos Real.sin i hi,
    final_posY Real.cos Real.sin i hi, key PI⟩, key⟩

/-- C2, at point 7. -/
theorem C2_points_on_unit_circle_witness :
    7 < 45 ∧
    ((∃ (l : Locals ℝ) (x y : ℝ), computeVertices Real.cos Real.sin = some l ∧
      l.posX.load 7 = some x ∧ l.posY.load 7 = some y ∧ x ^ 2 + y ^ 2 = 1) ∧
    ∀ c : ℝ, pointX Real.cos c 7 ^ 2 + pointY Real.sin c 7 ^ 2 = 1) :=
  ⟨by decide, C2_points_on_unit_circle 7 (by decide)⟩

/-- C3: read over the reals with the angle of point `i` taken as `(PI * 2 * i) / 45` for
`PI = 3.14159`, two different indices below 45 give two different points. -/
theorem C3_points_pairwise_distinct (i j : Nat) (hi : i < 45) (hj : j < 45) (hij : i ≠ j) :
    ∃ (l : Locals ℝ) (xi yi xj yj : ℝ), computeVertices Real.cos Real.sin = some l ∧
      l.posX.load i = some xi ∧ l.posY.load i = some yi ∧
      l.posX.load j = some xj ∧ l.posY.load j = some yj ∧
      (xi, yi) ≠ (xj, yj) := by
  refine ⟨_, _, _, _, _, computeVertices_eq Real.cos Real.sin,
    final_posX Real.cos Real.sin i hi, final_posY Real.cos Real.sin i hi,
    final_posX Real.cos Real.sin j hj, final_posY Real.cos Real.sin j hj, ?_⟩
  intro heq
  have hx : pointX Real.cos (PI : ℝ) i = pointX Real.cos (PI : ℝ) j := congrArg Prod.fst heq
  have hy : pointY Real.sin (PI : ℝ) i = pointY Real.sin (PI : ℝ) j := congrArg Prod.snd heq
  simp only [pointX, radius_real, one_mul] at hx
  simp only [pointY, radius_real, one_mul] at hy
  rcases Nat.lt_or_gt_of_ne hij with h | h
  · exact points_differ_of_lt j i hj h ⟨hx.symm, hy.symm⟩
  · exact points_differ_of_lt i j hi h ⟨hx, hy⟩

/-- C3, at the first and the last point. -/
theorem C3_points_pairwise_distinct_witness :
    0 < 45 ∧ 44 < 45 ∧ 0 ≠ 44 ∧
    ∃ (l : Locals ℝ) (xi yi xj yj : ℝ), computeVertices Real.cos Real.sin = some l ∧
      l.posX.load 0 = some xi ∧ l.posY.load 0 = some yi ∧
      l.posX.load 44 = some xj ∧ l.posY.load 44 = some yj ∧
      (xi, yi) ≠ (xj, yj) :=
  ⟨by decide, by decide, by decide,
    C3_points_pairwise_distinct 0 44 (by decide) (by decide) (by decide)⟩

end GeometryClaims

section BufferClaim

variable {α : Type} [Field α]

/-- C4: the two loops of `createTriangle` finish without leaving the arrays; the buffer they
fill has 90 cells, `vertices[2*i] = posX[i]` and `vertices[2*i+1] = posY[i]` for every
`i < 45`; the indices written are `0, 1, ..., 89` in this order, so each is below 90 and
each of the 90 cells is written exactly once; this buffer is what `glBufferData` uploads, and
its length is the 2 components of the attribute layout times the 45 vertices of the draw
call issued by a frame. -/
theorem C4_vertex_buffer_layout (cos sin : α → α) (api : Api) (w : World α)
    (mainWindow : Nat) :
    ∃ l : Locals α, computeVertices cos sin = some l ∧
      l.vertices.length = 90 ∧
      (∀ i : Fin 45, ∃ x y : α, l.posX.load i = some x ∧ l.posY.load i = some y ∧
        l.vertices.load (2 * i) = some x ∧ l.vertices.load (2 * i + 1) = some y) ∧
      l.stores = List.range 90 ∧
      (∀ k ∈ l.stores, k < 90) ∧
      (∀ k : Fin 90, l.stores.count (k : Nat) = 1) ∧
      (∃ w1 : World α, createTriangle cos sin api w = some w1 ∧
        w1.trace = w.trace ++
          [.glGenVertexArrays 1,
           .glBindVertexArray api.glGenVertexArrays,
           .glGenBuffers 1,
           .glBindBuffer .GL_ARRAY_BUFFER api.glGenBuffers,
           .glBufferData .GL_ARRAY_BUFFER (90 * api.sizeofGLfloat) l.vertices .GL_STATIC_DRAW,
           .glVertexAttribPointer 0 2 .GL_FLOAT .GL_FALSE 0 0,
           .glEnableVertexAttribArray 0,
           .glBindBuffer .GL_ARRAY_BUFFER 0,
           .glBindVertexArray 0]) ∧
      Event.glDrawArrays .GL_TRIANGLE_FAN 0 45 ∈ (frame mainWindow w).trace ∧
      l.vertices.length = 2 * 45 := by
  refine ⟨_, computeVertices_eq cos sin, final_length cos sin, ?_, ?_, ?_, ?_, ?_, ?_,
    final_length cos sin⟩
  · intro i
    have hi : (i : Nat) < 45 := i.isLt
    have e1 : 2 * (i : Nat) % 2 = 0 := by omega
    have e2 : 2 * (i : Nat) / 2 = i := by omega
    have e3 : (2 * (i : Nat) + 1) % 2 = 1 := by omega
    have e4 : (2 * (i : Nat) + 1) / 2 = i := by omega
    refine ⟨_, _, final_posX cos sin i hi, final_posY cos sin i hi, ?_, ?_⟩
    · rw [final_vertices cos sin (2 * i) (by omega)]
      simp only [slotValue, e1, e2, if_true]
    · rw [final_vertices cos sin (2 * i + 1) (by omega)]
      simp only [slotValue, e3, e4]
      simp
  · exact final_stores cos sin
  · intro k hk
    rw [final_stores] at hk
    exact List.mem_range.mp hk
  · intro k
    rw [final_stores]
    exact List.count_eq_one_of_mem (List.nodup_range _) (List.mem_range.mpr k.isLt)
  · exact ⟨_, createTriangle_eq cos sin api w, rfl⟩
  · simp [frame, World.emit]

end BufferClaim


/-! ## Reading traces -/

section TraceProofs

variable {α : Type}

theorem drawCallsFrom_append (t1 t2 : List (Event α)) (b : Nat × Nat) :
    drawCallsFrom b (t1 ++ t2) = drawCallsFrom b t1 ++ drawCallsFrom (bindingsAfter b t1) t2 := by
  induction t1 generalizing b with
  | nil => rfl
  | cons e es ih =>
    cases e <;> simp [drawCallsFrom, bindingsAfter, ih]

theorem bindingsAfter_append (t1 t2 : List (Event α)) (b : Nat × Nat) :
    bindingsAfter b (t1 ++ t2) = bindingsAfter (bindingsAfter b t1) t2 := by
  induction t1 generalizing b with
  | nil => rfl
  | cons e es ih =>
    cases e <;> simp [bindingsAfter, ih]

theorem framesPresented_append (t1 t2 : List (Event α)) :
    framesPresented (t1 ++ t2) = framesPresented t1 + framesPresented t2 := by
  induction t1 with
  | nil => simp [framesPresented]
  | cons e es ih =>
    cases e <;> simp [framesPresented, ih]
    omega

theorem framesPresented_repeat (l : List (Event α)) (n : Nat) :
    framesPresented (repeatCalls l n) = n * framesPresented l := by
  induction n with
  | zero => simp [repeatCalls, framesPresented]
  | succ m ih =>
    simp only [repeatCalls, framesPresented_append, ih]
    ring

end TraceProofs

section FrameProofs

variable {α : Type} [Field α]

theorem frame_eq (mainWindow : Nat) (w : World α) :
    frame mainWindow w =
      { w with trace := w.trace ++ frameCalls w.shaderProgram w.VAO mainWindow } := by
  simp only [frame, World.emit, frameCalls, List.append_assoc, List.singleton_append,
    List.cons_append, List.nil_append]

theorem drawCallsFrom_iteration (p v mainWindow : Nat) (b : Nat × Nat) :
    drawCallsFrom b (iterationCalls p v mainWindow : List (Event α))
      = [⟨.GL_TRIANGLE_FAN, 0, 45, p, v⟩] := by
  simp [iterationCalls, frameCalls, drawCallsFrom]

theorem bindingsAfter_iteration (p v mainWindow : Nat) (b : Nat × Nat) :
    bindingsAfter b (iterationCalls p v mainWindow : List (Event α)) = (0, 0) := by
  simp [iterationCalls, frameCalls, bindingsAfter]

theorem framesPresented_iteration (p v mainWindow : Nat) :
    framesPresented (iterationCalls p v mainWindow : List (Event α)) = 1 := by
  simp [iterationCalls, frameCalls, framesPresented]

theorem drawCallsFrom_repeat (p v mainWindow : Nat) (b : Nat × Nat) (n : Nat) :
    drawCallsFrom b (repeatCalls (iterationCalls p v mainWindow : List (Event α)) n)
      = List.replicate n ⟨.GL_TRIANGLE_FAN, 0, 45, p, v⟩ := by
  induction n with
  | zero => simp [repeatCalls, drawCallsFrom]
  | succ m ih =>
    simp only [repeatCalls, drawCallsFrom_append, ih, drawCallsFrom_iteration]
    rw [List.replicate_succ']

/-- While every reading so far was zero the loop is still running and has appended one
iteration per reading. -/
theorem renderLoop_running (api : Api) (mainWindow : Nat) (w : World α) (n : Nat)
    (h : ∀ j, j < n → api.windowShouldClose j = 0) :
    renderLoop api mainWindow w n =
      ⟨.RUNNING, n, ⟨w.VAO, w.VBO, w.shaderProgram,
        w.trace ++ repeatCalls (iterationCalls w.shaderProgram w.VAO mainWindow) n⟩⟩ := by
  induction n with
  | zero => simp [renderLoop, repeatCalls]
  | succ m ih =>
    have hm : api.windowShouldClose m = 0 := h m (Nat.lt_succ_self m)
    rw [renderLoop, ih (fun j hj => h j (Nat.lt_succ_of_lt hj))]
    simp only [loopStep, hm, if_true, frame_eq, World.emit, repeatCalls, iterationCalls,
      List.append_assoc, List.singleton_append, List.cons_append, List.nil_append]

/-- From the first non-zero reading on the loop is closed and its state no longer changes. -/
theorem renderLoop_closed (api : Api) (mainWindow : Nat) (w : World α) (k : Nat)
    (h : ∀ j, j < k → api.windowShouldClose j = 0) (hk : api.windowShouldClose k ≠ 0)
    (d : Nat) :
    renderLoop api mainWindow w (k + 1 + d) =
      ⟨.CLOSED, k + 1, ⟨w.VAO, w.VBO, w.shaderProgram,
        w.trace ++ repeatCalls (iterationCalls w.shaderProgram w.VAO mainWindow) k ++
          [.glfwWindowShouldClose mainWindow]⟩⟩ := by
  induction d with
  | zero =>
    rw [Nat.add_zero, renderLoop, renderLoop_running api mainWindow w k h]
    simp only [loopStep, hk, if_false, World.emit, List.append_assoc]
  | succ e ih =>
    rw [← Nat.add_assoc, renderLoop, ih]
    simp only [loopStep]

/-- Whatever the readings, after any number of steps the loop has appended whole
iterations, followed by the last reading once it is closed. -/
theorem renderLoop_shape (api : Api) (mainWindow : Nat) (w : World α) (fuel : Nat) :
    (renderLoop api mainWindow w fuel =
        ⟨.RUNNING, fuel, ⟨w.VAO, w.VBO, w.shaderProgram,
          w.trace ++ repeatCalls (iterationCalls w.shaderProgram w.VAO mainWindow) fuel⟩⟩ ∧
      ∀ j, j < fuel → api.windowShouldClose j = 0) ∨
    ∃ k, k < fuel ∧ (∀ j, j < k → api.windowShouldClose j = 0) ∧
      api.windowShouldClose k ≠ 0 ∧
      renderLoop api mainWindow w fuel =
        ⟨.CLOSED, k + 1, ⟨w.VAO, w.VBO, w.shaderProgram,
          w.trace ++ repeatCalls (iterationCalls w.shaderProgram w.VAO mainWindow) k ++
            [.glfwWindowShouldClose mainWindow]⟩⟩ := by
  by_cases hall : ∀ j, j < fuel → api.windowShouldClose j = 0
  · exact Or.inl ⟨renderLoop_running api mainWindow w fuel hall, hall⟩
  · right
    push_neg at hall
    have hex : ∃ k, k < fuel ∧ api.windowShouldClose k ≠ 0 := hall
    classical
    let k := Nat.find hex
    have hk : k < fuel ∧ api.windowShouldClose k ≠ 0 := Nat.find_spec hex
    have hmin : ∀ j, j < k → api.windowShouldClose j = 0 := by
      intro j hj
      by_contra hne
      exact Nat.find_min hex hj ⟨Nat.lt_trans hj hk.1, hne⟩
    obtain ⟨d, hd⟩ : ∃ d, fuel = k + 1 + d := ⟨fuel - (k + 1), by omega⟩
    refine ⟨k, hk.1, hmin, hk.2, ?_⟩
    rw [hd]
    exact renderLoop_closed api mainWindow w k hmin hk.2 d

end FrameProofs

section ShaderProofs

variable {α : Type}

theorem addShader_eq (api : Api) (ans : ShaderAnswers) (program : Nat) (code : String)
    (shaderType : GLconst) (w : World α) :
    addShader api ans program code shaderType w =
      ⟨w.VAO, w.VBO, w.shaderProgram,
        w.trace ++ shaderCalls api ans program code shaderType⟩ := by
  by_cases h : ans.compileStatus = 0
  · simp only [addShader, shaderCalls, compileCalls, h, if_true, World.emit, List.append_assoc,
      List.singleton_append, List.cons_append, List.nil_append]
  · simp only [addShader, shaderCalls, compileCalls, h, if_false, World.emit, List.append_assoc,
      List.singleton_append, List.cons_append, List.nil_append]

theorem compileShaders_eq (api : Api) (w : World α) :
    compileShaders api w =
      ⟨w.VAO, w.VBO, api.glCreateProgram, w.trace ++ compileShadersCalls api⟩ := by
  by_cases hp : api.glCreateProgram = 0
  · simp only [compileShaders, compileShadersCalls, hp, if_true, World.emit, List.append_assoc,
      List.singleton_append, List.cons_append, List.nil_append]
  · by_cases hl : api.linkStatus = 0
    · simp only [compileShaders, compileShadersCalls, linkCalls, hp, hl, if_true, if_false,
        addShader_eq, World.emit, List.append_assoc, List.singleton_append, List.cons_append,
        List.nil_append]
    · by_cases hv : api.validateStatus = 0
      · simp only [compileShaders, compileShadersCalls, linkCalls, validateCalls, hp, hl, hv,
          if_true, if_false, addShader_eq, World.emit, List.append_assoc,
          List.singleton_append, List.cons_append, List.nil_append]
      · simp only [compileShaders, compileShadersCalls, linkCalls, validateCalls, hp, hl, hv,
          if_false, addShader_eq, World.emit, List.append_assoc, List.singleton_append,
          List.cons_append, List.nil_append, List.append_nil]

theorem shaderCalls_draw (api : Api) (ans : ShaderAnswers) (program : Nat) (code : String)
    (shaderType : GLconst) (b : Nat × Nat) :
    drawCallsFrom b (shaderCalls api ans program code shaderType : List (Event α)) = [] := by
  by_cases h : ans.compileStatus = 0 <;>
    simp [shaderCalls, compileCalls, h, drawCallsFrom]

theorem shaderCalls_bindings (api : Api) (ans : ShaderAnswers) (program : Nat) (code : String)
    (shaderType : GLconst) (b : Nat × Nat) :
    bindingsAfter b (shaderCalls api ans program code shaderType : List (Event α)) = b := by
  by_cases h : ans.compileStatus = 0 <;>
    simp [shaderCalls, compileCalls, h, bindingsAfter]

theorem shaderCalls_frames (api : Api) (ans : ShaderAnswers) (program : Nat) (code : String)
    (shaderType : GLconst) :
    framesPresented (shaderCalls api ans program code shaderType : List (Event α)) = 0 := by
  by_cases h : ans.compileStatus = 0 <;>
    simp [shaderCalls, compileCalls, h, framesPresented]

theorem linkCalls_draw (api : Api) (b : Nat × Nat) :
    drawCallsFrom b (linkCalls api : List (Event α)) = [] := by
  by_cases hl : api.linkStatus = 0 <;> by_cases hv : api.validateStatus = 0 <;>
    simp [linkCalls, validateCalls, hl, hv, drawCallsFrom]

theorem linkCalls_bindings (api : Api) (b : Nat × Nat) :
    bindingsAfter b (linkCalls api : List (Event α)) = b := by
  by_cases hl : api.linkStatus = 0 <;> by_cases hv : api.validateStatus = 0 <;>
    simp [linkCalls, validateCalls, hl, hv, bindingsAfter]

theorem linkCalls_frames (api : Api) :
    framesPresented (linkCalls api : List (Event α)) = 0 := by
  by_cases hl : api.linkStatus = 0 <;> by_cases hv : api.validateStatus = 0 <;>
    simp [linkCalls, validateCalls, hl, hv, framesPresented]

theorem compileShadersCalls_draw (api : Api) (b : Nat × Nat) :
    drawCallsFrom b (compileShadersCalls api : List (Event α)) = [] := by
  by_cases hp : api.glCreateProgram = 0
  · simp [compileShadersCalls, hp, drawCallsFrom]
  · have h0 : ∀ c : Nat × Nat, drawCallsFrom c ([.glCreateProgram] : List (Event α)) = [] :=
      fun _ => rfl
    simp only [compileShadersCalls, hp, if_false, drawCallsFrom_append, h0,
      shaderCalls_draw, linkCalls_draw, List.append_nil]

theorem compileShadersCalls_bindings (api : Api) (b : Nat × Nat) :
    bindingsAfter b (compileShadersCalls api : List (Event α)) = b := by
  by_cases hp : api.glCreateProgram = 0
  · simp [compileShadersCalls, hp, bindingsAfter]
  · have h0 : ∀ c : Nat × Nat, bindingsAfter c ([.glCreateProgram] : List (Event α)) = c :=
      fun _ => rfl
    simp only [compileShadersCalls, hp, if_false, bindingsAfter_append, h0,
      shaderCalls_bindings, linkCalls_bindings]

theorem compileShadersCalls_frames (api : Api) :
    framesPresented (compileShadersCalls api : List (Event α)) = 0 := by
  by_cases hp : api.glCreateProgram = 0
  · simp [compileShadersCalls, hp, framesPresented]
  · have h0 : framesPresented ([.glCreateProgram] : List (Event α)) = 0 := rfl
    simp only [compileShadersCalls, hp, if_false, framesPresented_append, h0,
      shaderCalls_frames, linkCalls_frames]

end ShaderProofs

section MainProofs

variable {α : Type} [Field α]

theorem main_of_bootstrap (cos sin : α → α) (api : Api) (fuel : Nat)
    (h1 : api.glfwInit ≠ 0) (h2 : api.glfwCreateWindow ≠ 0)
    (h3 : api.glewInit = api.value .GLEW_OK) :
    main cos sin api fuel =
      match (renderLoop api api.glfwCreateWindow (setupWorld cos sin api) fuel).phase with
      | .CLOSED =>
        .returned 0 (renderLoop api api.glfwCreateWindow (setupWorld cos sin api) fuel).world
      | .RUNNING =>
        .running (renderLoop api api.glfwCreateWindow (setupWorld cos sin api) fuel).world := by
  simp only [main, h1, h2, h3, if_false, ne_eq, not_true_eq_false, createTriangle_eq,
    compileShaders_eq, setupWorld, bootstrapCalls, windowCalls, contextCalls, World.emit,
    World.init, List.append_assoc, List.singleton_append, List.cons_append, List.nil_append]

theorem setup_draw (cos sin : α → α) (api : Api) (b : Nat × Nat) :
    drawCallsFrom b (setupWorld cos sin api).trace = [] := by
  have h0 : ∀ c : Nat × Nat, drawCallsFrom c (bootstrapCalls api : List (Event α)) = [] :=
    fun _ => rfl
  have h1 : ∀ (c : Nat × Nat) (d : List (Option α)), drawCallsFrom c (uploadCalls api d) = [] :=
    fun _ _ => rfl
  simp only [setupWorld, drawCallsFrom_append, h0, h1, compileShadersCalls_draw,
    List.append_nil]

theorem setup_frames (cos sin : α → α) (api : Api) :
    framesPresented (setupWorld cos sin api).trace = 0 := by
  have h0 : framesPresented (bootstrapCalls api : List (Event α)) = 0 := rfl
  have h1 : ∀ d : List (Option α), framesPresented (uploadCalls api d) = 0 := fun _ => rfl
  simp only [setupWorld, framesPresented_append, h0, h1, compileShadersCalls_frames]

/-- When the three bootstrap calls succeed, `main` is in the render loop or has returned 0,
and its trace is the setup followed by whole iterations and, once closed, the last
reading. -/
theorem main_world_shape (cos sin : α → α) (api : Api) (fuel : Nat)
    (h1 : api.glfwInit ≠ 0) (h2 : api.glfwCreateWindow ≠ 0)
    (h3 : api.glewInit = api.value .GLEW_OK) :
    ∃ (wf : World α) (n : Nat) (extra : List (Event α)),
      ((main cos sin api fuel = .running wf ∧ extra = [] ∧ n = fuel ∧
          ∀ j, j < fuel → api.windowShouldClose j = 0) ∨
        (main cos sin api fuel = .returned 0 wf ∧
          extra = [.glfwWindowShouldClose api.glfwCreateWindow] ∧ n < fuel ∧
          (∀ j, j < n → api.windowShouldClose j = 0) ∧ api.windowShouldClose n ≠ 0)) ∧
      wf.VAO = api.glGenVertexArrays ∧ wf.VBO = api.glGenBuffers ∧
      wf.shaderProgram = api.glCreateProgram ∧
      wf.trace = (setupWorld cos sin api).trace ++
        repeatCalls
          (iterationCalls api.glCreateProgram api.glGenVertexArrays api.glfwCreateWindow) n ++
        extra := by
  rw [main_of_bootstrap cos sin api fuel h1 h2 h3]
  rcases renderLoop_shape api api.glfwCreateWindow (setupWorld cos sin api) fuel with
    ⟨hrun, hall⟩ | ⟨k, hk, hmin, hne, hclosed⟩
  · rw [hrun]
    exact ⟨_, fuel, [], Or.inl ⟨rfl, rfl, rfl, hall⟩, rfl, rfl, rfl, by
      simp only [setupWorld, List.append_nil]⟩
  · rw [hclosed]
    exact ⟨_, k, _, Or.inr ⟨rfl, rfl, hk, hmin, hne⟩, rfl, rfl, rfl, by
      simp only [setupWorld]⟩

theorem main_init_failure (cos sin : α → α) (api : Api) (fuel : Nat)
    (h1 : api.glfwInit = 0) :
    main cos sin api fuel =
      .returned 1 ⟨0, 0, 0,
        [.glfwInit, .printf "GLFW initialization failed!", .glfwTerminate]⟩ := by
  simp only [main, h1, if_true, World.emit, World.init, List.nil_append, List.singleton_append,
    List.cons_append]

theorem main_window_failure (cos sin : α → α) (api : Api) (fuel : Nat)
    (h1 : api.glfwInit ≠ 0) (h2 : api.glfwCreateWindow = 0) :
    main cos sin api fuel =
      .returned 1 ⟨0, 0, 0,
        [.glfwInit,
         .glfwWindowHint .GLFW_CONTEXT_VERSION_MAJOR (.int 3),
         .glfwWindowHint .GLFW_CONTEXT_VERSION_MINOR (.int 3),
         .glfwWindowHint .GLFW_OPENGL_PROFILE (.const .GLFW_OPENGL_CORE_PROFILE),
         .glfwWindowHint .GLFW_OPENGL_FORWARD_COMPAT (.const .GL_TRUE),
         .glfwCreateWindow 800 600 "processamento-grafico" 0 0,
         .printf "GLFW window creation failed!",
         .glfwTerminate]⟩ := by
  simp only [main, h1, h2, if_true, if_false, World.emit, World.init, WIDTH, HEIGHT,
    List.nil_append, List.singleton_append, List.cons_append]

theorem main_loader_failure (cos sin : α → α) (api : Api) (fuel : Nat)
    (h1 : api.glfwInit ≠ 0) (h2 : api.glfwCreateWindow ≠ 0)
    (h3 : api.glewInit ≠ api.value .GLEW_OK) :
    main cos sin api fuel =
      .returned 1 ⟨0, 0, 0,
        [.glfwInit,
         .glfwWindowHint .GLFW_CONTEXT_VERSION_MAJOR (.int 3),
         .glfwWindowHint .GLFW_CONTEXT_VERSION_MINOR (.int 3),
         .glfwWindowHint .GLFW_OPENGL_PROFILE (.const .GLFW_OPENGL_CORE_PROFILE),
         .glfwWindowHint .GLFW_OPENGL_FORWARD_COMPAT (.const .GL_TRUE),
         .glfwCreateWindow 800 600 "processamento-grafico" 0 0,
         .glfwGetFramebufferSize api.glfwCreateWindow,
         .glfwMakeContextCurrent api.glfwCreateWindow,
         .glewExperimentalAssign .GL_TRUE,
         .glewInit,
         .printf "GLEW initialization failed",
         .glfwDestroyWindow api.glfwCreateWindow,
         .glfwTerminate]⟩ := by
  simp only [main, h1, h2, h3, if_true, if_false, ne_eq, not_false_eq_true, World.emit,
    World.init, WIDTH, HEIGHT, List.nil_append, List.singleton_append, List.cons_append]

end MainProofs


/-! ## The claims about the shader builder -/

section ShaderClaims

variable {α : Type}

/-- C5: with the compile status as an input, `addShader` calls `glAttachShader` for the
created shader if and only if the status is non-zero; when the status is zero it fetches
the info log, prints a non-empty diagnostic that contains the log, and returns without any
`glAttachShader`. -/
theorem C5_addShader_attaches_iff_compiled (api : Api) (ans : ShaderAnswers) (program : Nat)
    (code : String) (shaderType : GLconst) (w : World α) :
    ∃ t : List (Event α),
      (addShader api ans program code shaderType w).trace = w.trace ++ t ∧
      (Event.glAttachShader program ans.shader ∈ t ↔ ans.compileStatus ≠ 0) ∧
      (t.any Event.isAttach = true ↔ ans.compileStatus ≠ 0) ∧
      (ans.compileStatus ≠ 0 →
        t = [.glCreateShader shaderType,
             .glShaderSource ans.shader 1 [code] [code.utf8ByteSize],
             .glCompileShader ans.shader,
             .glGetShaderiv ans.shader .GL_COMPILE_STATUS,
             .glAttachShader program ans.shader]) ∧
      (ans.compileStatus = 0 →
        t = [.glCreateShader shaderType,
             .glShaderSource ans.shader 1 [code] [code.utf8ByteSize],
             .glCompileShader ans.shader,
             .glGetShaderiv ans.shader .GL_COMPILE_STATUS,
             .glGetShaderInfoLog ans.shader 1024,
             .printf (compileDiagnostic (api.value shaderType) ans.errorLog)]) ∧
      0 < (compileDiagnostic (api.value shaderType) ans.errorLog).length ∧
      Contains (compileDiagnostic (api.value shaderType) ans.errorLog) ans.errorLog := by
  refine ⟨shaderCalls api ans program code shaderType, ?_, ?_, ?_, ?_, ?_, ?_, ?_⟩
  · rw [addShader_eq]
  · by_cases h : ans.compileStatus = 0 <;> simp [shaderCalls, compileCalls, h]
  · by_cases h : ans.compileStatus = 0 <;> simp [shaderCalls, compileCalls, h, Event.isAttach]
  · intro h
    simp [shaderCalls, compileCalls, h]
  · intro h
    simp [shaderCalls, compileCalls, h]
  · simp only [compileDiagnostic, String.length_append]
    have : 0 < "Error compiling the ".length := by decide
    omega
  · exact ⟨"Error compiling the " ++ fmtD (api.value shaderType) ++ " shader program: \x27",
      "\x27 \n", rfl⟩

/-- C5, on a shader whose compile status is 0 and whose log is "bad". -/
theorem C5_addShader_attaches_iff_compiled_witness :
    ∃ t : List (Event ℚ),
      (addShader (sampleApi 0) ⟨4, 0, "bad"⟩ 3 vertexShader .GL_VERTEX_SHADER
        (World.init ℚ)).trace = t ∧
      t.any Event.isAttach = false ∧
      Event.printf (compileDiagnostic 35633 "bad") ∈ t := by
  obtain ⟨t, ht, _, hany, _, hzero, _⟩ :=
    C5_addShader_attaches_iff_compiled (sampleApi 0) ⟨4, 0, "bad"⟩ 3 vertexShader
      .GL_VERTEX_SHADER (World.init ℚ)
  refine ⟨t, ht, ?_, ?_⟩
  · cases hb : t.any Event.isAttach
    · rfl
    · exact absurd rfl (hany.mp hb)
  · rw [hzero rfl]
    simp [sampleApi]

/-- C6 (counterexample): every compile, the link and the validation report success, yet
`glCreateProgram` hands back 0; `compileShaders` then leaves `shaderProgram` at 0, attaches
nothing and prints a diagnostic. -/
theorem C6_program_creation_can_fail :
    failedProgramApi.vertex.compileStatus ≠ 0 ∧ failedProgramApi.fragment.compileStatus ≠ 0 ∧
    failedProgramApi.linkStatus ≠ 0 ∧ failedProgramApi.validateStatus ≠ 0 ∧
    (compileShaders failedProgramApi (World.init ℚ)).shaderProgram = 0 ∧
    (compileShaders failedProgramApi (World.init ℚ)).trace =
      [.glCreateProgram, .printf "Error creating shader program!\n"] := by
  refine ⟨by decide, by decide, by decide, by decide, rfl, rfl⟩

/-- C6 (amended): when `glCreateProgram` returns a non-zero handle and both shader compiles,
the link and the validation report success, `compileShaders` leaves that non-zero handle in
`shaderProgram`, attaches the vertex shader and then the fragment shader, links once,
validates once, and prints nothing. -/
theorem C6_compileShaders_success (api : Api) (w : World α)
    (hp : api.glCreateProgram ≠ 0) (hv : api.vertex.compileStatus ≠ 0)
    (hf : api.fragment.compileStatus ≠ 0) (hl : api.linkStatus ≠ 0)
    (hval : api.validateStatus ≠ 0) :
    (compileShaders api w).shaderProgram = api.glCreateProgram ∧
    (compileShaders api w).shaderProgram ≠ 0 ∧
    ∃ t : List (Event α),
      (compileShaders api w).trace = w.trace ++ t ∧
      t = [.glCreateProgram,
           .glCreateShader .GL_VERTEX_SHADER,
           .glShaderSource api.vertex.shader 1 [vertexShader] [vertexShader.utf8ByteSize],
           .glCompileShader api.vertex.shader,
           .glGetShaderiv api.vertex.shader .GL_COMPILE_STATUS,
           .glAttachShader api.glCreateProgram api.vertex.shader,
           .glCreateShader .GL_FRAGMENT_SHADER,
           .glShaderSource api.fragment.shader 1 [fragmentShader] [fragmentShader.utf8ByteSize],
           .glCompileShader api.fragment.shader,
           .glGetShaderiv api.fragment.shader .GL_COMPILE_STATUS,
           .glAttachShader api.glCreateProgram api.fragment.shader,
           .glLinkProgram api.glCreateProgram,
           .glGetProgramiv api.glCreateProgram .GL_LINK_STATUS,
           .glValidateProgram api.glCreateProgram,
           .glGetProgramiv api.glCreateProgram .GL_VALIDATE_STATUS] ∧
      t.any Event.isPrintf = false := by
  rw [compileShaders_eq]
  refine ⟨rfl, hp, compileShadersCalls api, rfl, ?_, ?_⟩
  · simp [compileShadersCalls, shaderCalls, compileCalls, linkCalls, validateCalls, hp, hv, hf,
      hl, hval]
  · simp [compileShadersCalls, shaderCalls, compileCalls, linkCalls, validateCalls, hp, hv, hf,
      hl, hval, Event.isPrintf]

/-- C6 (amended), on the answers of `sampleApi 0`. -/
theorem C6_compileShaders_success_witness :
    (sampleApi 0).glCreateProgram ≠ 0 ∧ (sampleApi 0).vertex.compileStatus ≠ 0 ∧
    (sampleApi 0).fragment.compileStatus ≠ 0 ∧ (sampleApi 0).linkStatus ≠ 0 ∧
    (sampleApi 0).validateStatus ≠ 0 ∧
    ((compileShaders (sampleApi 0) (World.init ℚ)).shaderProgram = (sampleApi 0).glCreateProgram ∧
    (compileShaders (sampleApi 0) (World.init ℚ)).shaderProgram ≠ 0 ∧
    ∃ t : List (Event ℚ),
      (compileShaders (sampleApi 0) (World.init ℚ)).trace = (World.init ℚ).trace ++ t ∧
      t = [.glCreateProgram,
           .glCreateShader .GL_VERTEX_SHADER,
           .glShaderSource (sampleApi 0).vertex.shader 1 [vertexShader]
             [vertexShader.utf8ByteSize],
           .glCompileShader (sampleApi 0).vertex.shader,
           .glGetShaderiv (sampleApi 0).vertex.shader .GL_COMPILE_STATUS,
           .glAttachShader (sampleApi 0).glCreateProgram (sampleApi 0).vertex.shader,
           .glCreateShader .GL_FRAGMENT_SHADER,
           .glShaderSource (sampleApi 0).fragment.shader 1 [fragmentShader]
             [fragmentShader.utf8ByteSize],
           .glCompileShader (sampleApi 0).fragment.shader,
           .glGetShaderiv (sampleApi 0).fragment.shader .GL_COMPILE_STATUS,
           .glAttachShader (sampleApi 0).glCreateProgram (sampleApi 0).fragment.shader,
           .glLinkProgram (sampleApi 0).glCreateProgram,
           .glGetProgramiv (sampleApi 0).glCreateProgram .GL_LINK_STATUS,
           .glValidateProgram (sampleApi 0).glCreateProgram,
           .glGetProgramiv (sampleApi 0).glCreateProgram .GL_VALIDATE_STATUS] ∧
      t.any Event.isPrintf = false) :=
  ⟨by decide, by decide, by decide, by decide, by decide,
    C6_compileShaders_success (sampleApi 0) (World.init ℚ) (by decide) (by decide)
      (by decide) (by decide) (by decide)⟩

end ShaderClaims


/-! ## The claims about the render loop and `main` -/

section LoopClaims

variable {α : Type} [Field α]

/-- C7: stepping the loop over the readings of `glfwWindowShouldClose`: if reading `k` is
the first non-zero one, the loop is running after every `n ≤ k` steps, having read `n`
values and presented `n` frames, and after every `n > k` steps it is closed, having read
`k + 1` values and presented exactly `k` frames (none when `k = 0`), in the same state as
after `k + 1` steps; if no reading is non-zero the loop runs for ever; and a closed loop
never changes state again. -/
theorem C7_render_loop_closes_at_first_close_request (api : Api) (mainWindow : Nat)
    (w : World α) :
    (∀ k, (∀ j, j < k → api.windowShouldClose j = 0) → api.windowShouldClose k ≠ 0 →
      (∀ n, n ≤ k →
        (renderLoop api mainWindow w n).phase = .RUNNING ∧
        (renderLoop api mainWindow w n).polls = n ∧
        framesPresented (renderLoop api mainWindow w n).world.trace
          = framesPresented w.trace + n) ∧
      (∀ n, k < n →
        (renderLoop api mainWindow w n).phase = .CLOSED ∧
        (renderLoop api mainWindow w n).polls = k + 1 ∧
        framesPresented (renderLoop api mainWindow w n).world.trace
          = framesPresented w.trace + k ∧
        renderLoop api mainWindow w n = renderLoop api mainWindow w (k + 1))) ∧
    ((∀ j, api.windowShouldClose j = 0) →
      ∀ n, (renderLoop api mainWindow w n).phase = .RUNNING ∧
        framesPresented (renderLoop api mainWindow w n).world.trace
          = framesPresented w.trace + n) ∧
    (∀ n, (renderLoop api mainWindow w n).phase = .CLOSED →
      renderLoop api mainWindow w (n + 1) = renderLoop api mainWindow w n) := by
  refine ⟨?_, ?_, ?_⟩
  · intro k hmin hk
    constructor
    · intro n hn
      rw [renderLoop_running api mainWindow w n (fun j hj => hmin j (Nat.lt_of_lt_of_le hj hn))]
      simp only [framesPresented_append, framesPresented_repeat, framesPresented_iteration,
        Nat.mul_one, and_self]
    · intro n hn
      obtain ⟨d, hd⟩ : ∃ d, n = k + 1 + d := ⟨n - (k + 1), by omega⟩
      have h0 := renderLoop_closed api mainWindow w k hmin hk 0
      rw [Nat.add_zero] at h0
      rw [hd, renderLoop_closed api mainWindow w k hmin hk d, h0]
      have hq : framesPresented
          ([.glfwWindowShouldClose mainWindow] : List (Event α)) = 0 := rfl
      simp only [framesPresented_append, framesPresented_repeat, framesPresented_iteration,
        Nat.mul_one, hq, Nat.add_zero, and_self]
  · intro hall n
    rw [renderLoop_running api mainWindow w n (fun j _ => hall j)]
    simp only [framesPresented_append, framesPresented_repeat, framesPresented_iteration,
      Nat.mul_one, and_self]
  · intro n hn
    show loopStep api mainWindow (renderLoop api mainWindow w n) = renderLoop api mainWindow w n
    simp only [loopStep, hn]

/-- C8: one pass through the loop body appends exactly: poll events, set the clear colour and
clear the colour buffer, bind the program, bind the vertex array, one `glDrawArrays` with
`GL_TRIANGLE_FAN`, first vertex 0 and 45 vertices, unbind the vertex array, unbind the
program, swap buffers; it leaves the globals unchanged; its single draw call is issued with
`shaderProgram` and `VAO` bound.  Every step of the loop taken while running on a zero
reading appends the reading followed by exactly that sequence, and so does every further
step of `renderLoop`.  In a run of `main` whose bootstrap succeeded the trace after the
setup is that iteration repeated once per zero reading: `fuel` times while no close request
has been read, and exactly `k` times, followed by the last reading, once reading `k` was
the first non-zero one; the draw calls of the whole trace are then that many copies of the
same call, with the handle that `compileShaders` stored (the value of `glCreateProgram`) and
the `VAO` of `createTriangle` bound. -/
theorem C8_every_frame_issues_the_same_single_draw_call (cos sin : α → α) (api : Api)
    (mainWindow : Nat) (w : World α) (fuel : Nat) :
    (∃ t : List (Event α),
      (frame mainWindow w).trace = w.trace ++ t ∧
      t = [.glfwPollEvents,
           .glClearColor 0.0 0.0 0.0 1.0,
           .glClear .GL_COLOR_BUFFER_BIT,
           .glUseProgram w.shaderProgram,
           .glBindVertexArray w.VAO,
           .glDrawArrays .GL_TRIANGLE_FAN 0 45,
           .glBindVertexArray 0,
           .glUseProgram 0,
           .glfwSwapBuffers mainWindow] ∧
      ∀ b : Nat × Nat,
        drawCallsFrom b t = [⟨.GL_TRIANGLE_FAN, 0, 45, w.shaderProgram, w.VAO⟩]) ∧
    (frame mainWindow w).shaderProgram = w.shaderProgram ∧
    (frame mainWindow w).VAO = w.VAO ∧
    (frame mainWindow w).VBO = w.VBO ∧
    (∀ s : LoopState α, s.phase = .RUNNING → api.windowShouldClose s.polls = 0 →
      loopStep api mainWindow s =
        ⟨.RUNNING, s.polls + 1,
          ⟨s.world.VAO, s.world.VBO, s.world.shaderProgram,
            s.world.trace ++
              [.glfwWindowShouldClose mainWindow,
               .glfwPollEvents,
               .glClearColor 0.0 0.0 0.0 1.0,
               .glClear .GL_COLOR_BUFFER_BIT,
               .glUseProgram s.world.shaderProgram,
               .glBindVertexArray s.world.VAO,
               .glDrawArrays .GL_TRIANGLE_FAN 0 45,
               .glBindVertexArray 0,
               .glUseProgram 0,
               .glfwSwapBuffers mainWindow]⟩⟩) ∧
    (∀ n, (∀ j, j < n + 1 → api.windowShouldClose j = 0) →
      (renderLoop api mainWindow w (n + 1)).phase = .RUNNING ∧
      (renderLoop api mainWindow w (n + 1)).world.trace =
        (renderLoop api mainWindow w n).world.trace ++
          [.glfwWindowShouldClose mainWindow,
           .glfwPollEvents,
           .glClearColor 0.0 0.0 0.0 1.0,
           .glClear .GL_COLOR_BUFFER_BIT,
           .glUseProgram w.shaderProgram,
           .glBindVertexArray w.VAO,
           .glDrawArrays .GL_TRIANGLE_FAN 0 45,
           .glBindVertexArray 0,
           .glUseProgram 0,
           .glfwSwapBuffers mainWindow]) ∧
    (compileShaders api w).shaderProgram = api.glCreateProgram ∧
    (∃ w1 : World α, createTriangle cos sin api w = some w1 ∧
      w1.VAO = api.glGenVertexArrays) ∧
    (api.glfwInit ≠ 0 → api.glfwCreateWindow ≠ 0 → api.glewInit = api.value .GLEW_OK →
      ∃ w1 : World α,
        createTriangle cos sin api ⟨0, 0, 0, bootstrapCalls api⟩ = some w1 ∧
        ((∀ j, j < fuel → api.windowShouldClose j = 0) →
          ∃ wf : World α, main cos sin api fuel = .running wf ∧
            wf.shaderProgram = api.glCreateProgram ∧ wf.VAO = api.glGenVertexArrays ∧
            wf.trace = (compileShaders api w1).trace ++
              repeatCalls
                [.glfwWindowShouldClose api.glfwCreateWindow,
                 .glfwPollEvents,
                 .glClearColor 0.0 0.0 0.0 1.0,
                 .glClear .GL_COLOR_BUFFER_BIT,
                 .glUseProgram api.glCreateProgram,
                 .glBindVertexArray api.glGenVertexArrays,
                 .glDrawArrays .GL_TRIANGLE_FAN 0 45,
                 .glBindVertexArray 0,
                 .glUseProgram 0,
                 .glfwSwapBuffers api.glfwCreateWindow] fuel ∧
            framesPresented wf.trace = fuel ∧
            drawCalls wf.trace = List.replicate fuel
              ⟨.GL_TRIANGLE_FAN, 0, 45, api.glCreateProgram, api.glGenVertexArrays⟩) ∧
        (∀ k, k < fuel → (∀ j, j < k → api.windowShouldClose j = 0) →
          api.windowShouldClose k ≠ 0 →
          ∃ wf : World α, main cos sin api fuel = .returned 0 wf ∧
            wf.shaderProgram = api.glCreateProgram ∧ wf.VAO = api.glGenVertexArrays ∧
            wf.trace = (compileShaders api w1).trace ++
              repeatCalls
                [.glfwWindowShouldClose api.glfwCreateWindow,
                 .glfwPollEvents,
                 .glClearColor 0.0 0.0 0.0 1.0,
                 .glClear .GL_COLOR_BUFFER_BIT,
                 .glUseProgram api.glCreateProgram,
                 .glBindVertexArray api.glGenVertexArrays,
                 .glDrawArrays .GL_TRIANGLE_FAN 0 45,
                 .glBindVertexArray 0,
                 .glUseProgram 0,
                 .glfwSwapBuffers api.glfwCreateWindow] k ++
              [.glfwWindowShouldClose api.glfwCreateWindow] ∧
            framesPresented wf.trace = k ∧
            drawCalls wf.trace = List.replicate k
              ⟨.GL_TRIANGLE_FAN, 0, 45, api.glCreateProgram, api.glGenVertexArrays⟩)) := by
  refine ⟨⟨frameCalls w.shaderProgram w.VAO mainWindow, ?_, rfl, ?_⟩, ?_, ?_, ?_, ?_, ?_, ?_,
    ?_, ?_⟩
  · rw [frame_eq]
  · intro b
    simp [frameCalls, drawCallsFrom]
  · rw [frame_eq]
  · rw [frame_eq]
  · rw [frame_eq]
  · intro s hphase hread
    simp only [loopStep, hphase, hread, if_true, frame_eq, World.emit, frameCalls,
      List.append_assoc, List.singleton_append, List.cons_append, List.nil_append]
  · intro n hall
    rw [renderLoop_running api mainWindow w (n + 1) hall,
      renderLoop_running api mainWindow w n (fun j hj => hall j (Nat.lt_succ_of_lt hj))]
    refine ⟨rfl, ?_⟩
    simp only [repeatCalls, iterationCalls, frameCalls, List.append_assoc]
  · rw [compileShaders_eq]
  · exact ⟨_, createTriangle_eq cos sin api w, rfl⟩
  · intro h1 h2 h3
    obtain ⟨wf, n, extra, hcase, hvao, _, hprog, htrace⟩ :=
      main_world_shape cos sin api fuel h1 h2 h3
    have hsetup : (compileShaders api
        ⟨api.glGenVertexArrays, api.glGenBuffers, 0,
          bootstrapCalls api ++ uploadCalls api (interleaveState cos sin 45).vertices⟩).trace
        = (setupWorld cos sin api).trace := by
      rw [compileShaders_eq]
      simp only [setupWorld]
    have hiter : (iterationCalls api.glCreateProgram api.glGenVertexArrays
        api.glfwCreateWindow : List (Event α)) =
        [.glfwWindowShouldClose api.glfwCreateWindow,
         .glfwPollEvents,
         .glClearColor 0.0 0.0 0.0 1.0,
         .glClear .GL_COLOR_BUFFER_BIT,
         .glUseProgram api.glCreateProgram,
         .glBindVertexArray api.glGenVertexArrays,
         .glDrawArrays .GL_TRIANGLE_FAN 0 45,
         .glBindVertexArray 0,
         .glUseProgram 0,
         .glfwSwapBuffers api.glfwCreateWindow] := rfl
    have hq : framesPresented
        ([.glfwWindowShouldClose api.glfwCreateWindow] : List (Event α)) = 0 := rfl
    have hqd : ∀ b : Nat × Nat, drawCallsFrom b
        ([.glfwWindowShouldClose api.glfwCreateWindow] : List (Event α)) = [] := fun _ => rfl
    refine ⟨_, createTriangle_eq cos sin api _, ?_, ?_⟩
    · intro hall
      rcases hcase with ⟨hrun, he, hn, _⟩ | ⟨_, _, hn, _, hne⟩
      · subst hn
        refine ⟨wf, hrun, hprog, hvao, ?_, ?_, ?_⟩
        · rw [htrace, hsetup, he, List.append_nil, hiter]
        · rw [htrace, he, List.append_nil]
          simp only [framesPresented_append, framesPresented_repeat,
            framesPresented_iteration, setup_frames, Nat.mul_one, Nat.zero_add]
        · rw [drawCalls, htrace, he, List.append_nil]
          simp only [drawCallsFrom_append, drawCallsFrom_repeat, setup_draw, List.nil_append]
      · exact absurd (hall n hn) hne
    · intro k hk hmin hne
      rcases hcase with ⟨_, _, _, hall⟩ | ⟨hret, he, hn, hminn, hnen⟩
      · exact absurd (hall k hk) hne
      · have hnk : n = k := by
          rcases Nat.lt_trichotomy n k with h | h | h
          · exact absurd (hmin n h) hnen
          · exact h
          · exact absurd (hminn k h) hne
        subst hnk
        refine ⟨wf, hret, hprog, hvao, ?_, ?_, ?_⟩
        · rw [htrace, hsetup, he, hiter]
        · rw [htrace, he]
          simp only [framesPresented_append, framesPresented_repeat,
            framesPresented_iteration, setup_frames, hq, Nat.mul_one, Nat.zero_add,
            Nat.add_zero]
        · rw [drawCalls, htrace, he]
          simp only [drawCallsFrom_append, drawCallsFrom_repeat, setup_draw, hqd,
            List.nil_append, List.append_nil]

/-- C9: if `glfwInit` fails, or window creation fails, or `glewInit` fails, `main` prints a
message and returns 1, and its whole trace is the bootstrap calls made so far followed by the
message and the clean-up: no call of `createTriangle`, of `compileShaders` or of the render
loop occurs.  `main` returns 0 only when the three calls succeeded and a close request was
read, and in that case it does return 0 once the loop has been stepped past that reading. -/
theorem C9_bootstrap_failures_exit_with_status_one (cos sin : α → α) (api : Api)
    (fuel : Nat) :
    (api.glfwInit = 0 →
      main cos sin api fuel =
        .returned 1 ⟨0, 0, 0,
          [.glfwInit, .printf "GLFW initialization failed!", .glfwTerminate]⟩) ∧
    (api.glfwInit ≠ 0 → api.glfwCreateWindow = 0 →
      main cos sin api fuel =
        .returned 1 ⟨0, 0, 0,
          [.glfwInit,
           .glfwWindowHint .GLFW_CONTEXT_VERSION_MAJOR (.int 3),
           .glfwWindowHint .GLFW_CONTEXT_VERSION_MINOR (.int 3),
           .glfwWindowHint .GLFW_OPENGL_PROFILE (.const .GLFW_OPENGL_CORE_PROFILE),
           .glfwWindowHint .GLFW_OPENGL_FORWARD_COMPAT (.const .GL_TRUE),
           .glfwCreateWindow 800 600 "processamento-grafico" 0 0,
           .printf "GLFW window creation failed!",
           .glfwTerminate]⟩) ∧
    (api.glfwInit ≠ 0 → api.glfwCreateWindow ≠ 0 → api.glewInit ≠ api.value .GLEW_OK →
      main cos sin api fuel =
        .returned 1 ⟨0, 0, 0,
          [.glfwInit,
           .glfwWindowHint .GLFW_CONTEXT_VERSION_MAJOR (.int 3),
           .glfwWindowHint .GLFW_CONTEXT_VERSION_MINOR (.int 3),
           .glfwWindowHint .GLFW_OPENGL_PROFILE (.const .GLFW_OPENGL_CORE_PROFILE),
           .glfwWindowHint .GLFW_OPENGL_FORWARD_COMPAT (.const .GL_TRUE),
           .glfwCreateWindow 800 600 "processamento-grafico" 0 0,
           .glfwGetFramebufferSize api.glfwCreateWindow,
           .glfwMakeContextCurrent api.glfwCreateWindow,
           .glewExperimentalAssign .GL_TRUE,
           .glewInit,
           .printf "GLEW initialization failed",
           .glfwDestroyWindow api.glfwCreateWindow,
           .glfwTerminate]⟩) ∧
    (∀ wf : World α, main cos sin api fuel = .returned 0 wf →
      api.glfwInit ≠ 0 ∧ api.glfwCreateWindow ≠ 0 ∧ api.glewInit = api.value .GLEW_OK ∧
      ∃ k, k < fuel ∧ (∀ j, j < k → api.windowShouldClose j = 0) ∧
        api.windowShouldClose k ≠ 0) ∧
    (api.glfwInit ≠ 0 → api.glfwCreateWindow ≠ 0 → api.glewInit = api.value .GLEW_OK →
      ∀ k, (∀ j, j < k → api.windowShouldClose j = 0) → api.windowShouldClose k ≠ 0 →
        (k < fuel → ∃ wf : World α, main cos sin api fuel = .returned 0 wf) ∧
        (fuel ≤ k → ∃ wf : World α, main cos sin api fuel = .running wf)) := by
  refine ⟨main_init_failure cos sin api fuel, main_window_failure cos sin api fuel,
    main_loader_failure cos sin api fuel, ?_, ?_⟩
  · intro wf hret
    by_cases h1 : api.glfwInit = 0
    · rw [main_init_failure cos sin api fuel h1] at hret
      injection hret with hs _
      exact absurd hs (by decide)
    by_cases h2 : api.glfwCreateWindow = 0
    · rw [main_window_failure cos sin api fuel h1 h2] at hret
      injection hret with hs _
      exact absurd hs (by decide)
    by_cases h3 : api.glewInit = api.value .GLEW_OK
    · refine ⟨h1, h2, h3, ?_⟩
      obtain ⟨wf2, n, extra, hcase, _⟩ := main_world_shape cos sin api fuel h1 h2 h3
      rcases hcase with ⟨hrun, _⟩ | ⟨_, _, hn, hmin, hne⟩
      · rw [hrun] at hret
        exact Outcome.noConfusion hret
      · exact ⟨n, hn, hmin, hne⟩
    · rw [main_loader_failure cos sin api fuel h1 h2 h3] at hret
      injection hret with hs _
      exact absurd hs (by decide)
  · intro h1 h2 h3 k hmin hk
    obtain ⟨wf, n, extra, hcase, _⟩ := main_world_shape cos sin api fuel h1 h2 h3
    constructor
    · intro hlt
      rcases hcase with ⟨_, _, _, hall⟩ | ⟨hret, _⟩
      · exact absurd (hall k hlt) hk
      · exact ⟨wf, hret⟩
    · intro hle
      rcases hcase with ⟨hrun, _⟩ | ⟨_, _, hn, _, hne⟩
      · exact ⟨wf, hrun⟩
      · exact absurd (hmin n (Nat.lt_of_lt_of_le hn hle)) hne

/-- C7, on readings 0, 0, 1: running after two steps, closed after five, two frames. -/
theorem C7_render_loop_closes_at_first_close_request_witness :
    (renderLoop (sampleApi 2) 7 (World.init ℝ) 2).phase = .RUNNING ∧
    (renderLoop (sampleApi 2) 7 (World.init ℝ) 5).phase = .CLOSED ∧
    (renderLoop (sampleApi 2) 7 (World.init ℝ) 5).polls = 3 ∧
    framesPresented (renderLoop (sampleApi 2) 7 (World.init ℝ) 5).world.trace = 2 :=
  have h := (C7_render_loop_closes_at_first_close_request (sampleApi 2) 7 (World.init ℝ)).1 2
    (by decide) (by decide)
  ⟨(h.1 2 (Nat.le_refl 2)).1, (h.2 5 (by decide)).1, (h.2 5 (by decide)).2.1,
    (h.2 5 (by decide)).2.2.1⟩

/-- C8, on a run whose bootstrap succeeds and whose readings are 0, 0, 1: `main` returns 0
after exactly two iterations, and the draw calls of its trace are two triangle fans of 45
vertices with program 3 and vertex array 1 bound. -/
theorem C8_every_frame_issues_the_same_single_draw_call_witness :
    ∃ w1 wf : World ℝ,
      createTriangle Real.cos Real.sin (sampleApi 2) ⟨0, 0, 0, bootstrapCalls (sampleApi 2)⟩
        = some w1 ∧
      main Real.cos Real.sin (sampleApi 2) 5 = .returned 0 wf ∧
      wf.trace = (compileShaders (sampleApi 2) w1).trace ++
        repeatCalls
          [.glfwWindowShouldClose 7,
           .glfwPollEvents,
           .glClearColor 0.0 0.0 0.0 1.0,
           .glClear .GL_COLOR_BUFFER_BIT,
           .glUseProgram 3,
           .glBindVertexArray 1,
           .glDrawArrays .GL_TRIANGLE_FAN 0 45,
           .glBindVertexArray 0,
           .glUseProgram 0,
           .glfwSwapBuffers 7] 2 ++
        [.glfwWindowShouldClose 7] ∧
      framesPresented wf.trace = 2 ∧
      drawCalls wf.trace =
        [⟨.GL_TRIANGLE_FAN, 0, 45, 3, 1⟩, ⟨.GL_TRIANGLE_FAN, 0, 45, 3, 1⟩] := by
  obtain ⟨w1, hw1, _, hclosed⟩ :=
    (C8_every_frame_issues_the_same_single_draw_call Real.cos Real.sin (sampleApi 2) 7
      (World.init ℝ) 5).2.2.2.2.2.2.2.2 (by decide) (by decide) (by decide)
  obtain ⟨wf, hret, _, _, htrace, hframes, hdraw⟩ :=
    hclosed 2 (by decide) (by decide) (by decide)
  exact ⟨w1, wf, hw1, hret, htrace, hframes, hdraw⟩

/-- C9, on a failing `glfwInit` and on a successful run with readings 0, 0, 1. -/
theorem C9_bootstrap_failures_exit_with_status_one_witness :
    main Real.cos Real.sin failedInitApi 5 =
      .returned 1 ⟨0, 0, 0,
        [.glfwInit, .printf "GLFW initialization failed!", .glfwTerminate]⟩ ∧
    (∃ wf : World ℝ, main Real.cos Real.sin (sampleApi 2) 5 = .returned 0 wf) ∧
    (∃ wf : World ℝ, main Real.cos Real.sin (sampleApi 2) 2 = .running wf) :=
  ⟨(C9_bootstrap_failures_exit_with_status_one Real.cos Real.sin failedInitApi 5).1
      (by decide),
    ((C9_bootstrap_failures_exit_with_status_one Real.cos Real.sin (sampleApi 2) 5).2.2.2.2
      (by decide) (by decide) (by decide) 2 (by decide) (by decide)).1 (by decide),
    ((C9_bootstrap_failures_exit_with_status_one Real.cos Real.sin (sampleApi 2) 2).2.2.2.2
      (by decide) (by decide) (by decide) 2 (by decide) (by decide)).2 (by decide)⟩

end LoopClaims

end ProcessamentoGrafico
